import Mathlib

/-!
Verification of the RonPay payment orchestration engine.

This file gives a shallow embedding, in Lean 4, of the core components of the
RonPay backend (NestJS / TypeScript): recipient resolution, route
optimization, staged transaction composition, spending limits, transaction
recording and the post-broadcast confirmation/verification/fulfillment
monitor.  Each definition is translated from the corresponding TypeScript
function; external collaborators (price oracle, identity lookup, chain
client, fulfillment vendor) are modelled as explicit function parameters.

Modelling conventions:
* JavaScript numbers (parseFloat arithmetic on decimal amount strings) are
  modelled as exact rationals; the amounts the claims touch are exact
  decimals well inside the double range, where float and rational
  arithmetic agree on the comparisons and differences taken here.
* Addresses, currencies and hex strings are Lean strings; case-insensitive
  comparisons lowercase both sides exactly where the source does.
* parseUnits(amount, 18) is modelled as multiplication by 10 ^ 18.
* The record field named to in the source is named dest here, since to is a
  reserved word in Lean.
* Promise-based control flow is modelled by explicit sequencing: a
  background monitor is a pure function from the awaited chain receipt to
  the list of record-store updates and vendor invocations it performs.
-/

namespace RonPay

abbrev Address := String
abbrev Currency := String

/-- Wei conversion used throughout the backend: parseUnits(amount, 18). -/
def parseUnits18 (q : ℚ) : ℚ := q * 10 ^ 18

/-- Lowercase a string, as the TypeScript toLowerCase() calls do. -/
def lower (s : String) : String := String.mk (s.data.map Char.toLower)

def isHexDigit (c : Char) : Bool :=
  c.isDigit || (('a' ≤ c) && (c ≤ 'f')) || (('A' ≤ c) && (c ≤ 'F'))

/-- CeloService.isValidAddress: the regex 0x followed by exactly 40 hex digits. -/
def isValidAddress (s : String) : Bool :=
  match s.data with
  | '0' :: 'x' :: rest => rest.length = 40 && rest.all isHexDigit
  | _ => false

/-- The transaction-hash regex in recordTransaction: 0x followed by exactly
64 hex digits. -/
def isValidTxHash (s : String) : Bool :=
  match s.data with
  | '0' :: 'x' :: rest => rest.length = 64 && rest.all isHexDigit
  | _ => false

/-- CELO_TOKENS (mainnet table from celo.service.ts).  The Alfajores table
differs only in the cUSDC/cUSDT entries, which no code path verified here
reads, so the single mainnet table stands in for getTokenMap(). -/
def CELO_TOKENS : List (Currency × Address) :=
  [ ("USDm", "0xdE9e4C3ce781b4bA68120d6261cbad65ce0aB00b"),
    ("EURm", "0xA99dC247d6b7B2E3ab48a1fEE101b83cD6aCd82a"),
    ("BRLm", "0x2294298942fdc79417DE9E0D740A4957E0e7783a"),
    ("KESm", "0xC7e4635651E3e3Af82b61d3E23c159438daE3BbF"),
    ("NGNm", "0x3d5ae86F34E2a82771496D140daFAEf3789dF888"),
    ("cUSDC", "0xceb09c2a6886ed289893d562b87f8d689b9d118c"),
    ("cUSDT", "0xb020D981420744F6b0FedD22bB67cd37Ce18a1d5"),
    ("CELO", "native") ]

/-- Lookup CELO_TOKENS[token]. -/
def tokenAddress (token : Currency) : Address :=
  (CELO_TOKENS.lookup token).getD ""

/-- AGENT_CONFIG.maxTransactionAmount from agent-config.ts. -/
def maxTransactionAmount : ℚ := 1000

/-- AGENT_CONFIG.confirmationThreshold from agent-config.ts. -/
def confirmationThreshold : ℚ := 100

-- ────────────────────────────────────────────────────────────
-- Transaction descriptors (built by CeloService / MentoService)
-- ────────────────────────────────────────────────────────────

/-- Call data of an unsigned transaction.  encodeFunctionData is modelled
structurally: the constructor records which ABI function is encoded and
with which arguments; swap stands for the calldata the Mento SDK swapOut
call produces. -/
inductive TxData where
  | empty : TxData
  | transfer (dest : Address) (amountWei : ℚ) : TxData
  | approve (spender : Address) (amountWei : ℚ) : TxData
  | swap (fromT toT : Address) (exactOutWei maxInWei : ℚ) : TxData
deriving DecidableEq, Repr

/-- An unsigned transaction descriptor returned to the client for signing. -/
structure Tx where
  dest : Address
  value : ℚ
  data : TxData
  feeCurrency : Address
deriving DecidableEq, Repr

/-- CeloService.buildPaymentTransaction (no caller modelled here passes an
explicit feeCurrency, so the USDm default applies). -/
def buildPaymentTransaction (toA : Address) (amount : ℚ) (token : Currency) : Tx :=
  if token = "CELO" then
    { dest := toA, value := parseUnits18 amount, data := TxData.empty,
      feeCurrency := tokenAddress "USDm" }
  else
    { dest := tokenAddress token, value := 0,
      data := TxData.transfer toA (parseUnits18 amount),
      feeCurrency := tokenAddress "USDm" }

/-- CeloService.buildApproveTransaction. -/
def buildApproveTransaction (token : Currency) (spender : Address) (amount : ℚ) : Tx :=
  { dest := tokenAddress token, value := 0,
    data := TxData.approve spender (parseUnits18 amount),
    feeCurrency := tokenAddress "USDm" }

/-- MentoService.buildSwapTransaction: the Mento SDK swapOut call, modelled
structurally.  The returned descriptor targets the Mento broker of the
active network and carries the swap calldata; value defaults to zero. -/
def buildSwapTransaction (broker : Address) (fromT toT : Currency)
    (amountOut maxAmountIn : ℚ) : Tx :=
  { dest := broker, value := 0,
    data := TxData.swap (tokenAddress fromT) (tokenAddress toT)
      (parseUnits18 amountOut) (parseUnits18 maxAmountIn),
    feeCurrency := "" }

-- ────────────────────────────────────────────────────────────
-- Errors (BadRequestException family, tagged by message)
-- ────────────────────────────────────────────────────────────

inductive PayError where
  | missingRecipient : PayError
  | invalidAmount : PayError
  | limitExceeded : PayError
  | unresolvedRecipient : PayError
  | swapBuildFailure : PayError
  | invalidHashFormat : PayError
deriving DecidableEq, Repr

-- ────────────────────────────────────────────────────────────
-- RecipientResolver (PaymentsService.resolveRecipient)
-- ────────────────────────────────────────────────────────────

/-- PaymentsService.resolveRecipient, instrumented with the number of calls
made to the identity-lookup collaborator (identityService.resolvePhoneNumber,
modelled as the function parameter).  The second component counts lookups. -/
def resolveRecipient (resolvePhone : String → Option Address) (raw : String) :
    Except PayError Address × Nat :=
  if isValidAddress raw then
    (Except.ok raw, 0)
  else
    match resolvePhone raw with
    | some a => (Except.ok a, 1)
    | none => (Except.error PayError.unresolvedRecipient, 1)

-- ────────────────────────────────────────────────────────────
-- TransactionComposer (PaymentsService.buildTransferResponse)
-- ────────────────────────────────────────────────────────────

/-- Result of MentoService.getAmountInQuote (fixed-output quote). -/
structure AmountInQuote where
  amountIn : ℚ
  price : ℚ
  src : String
deriving DecidableEq, Repr

/-- Result of MentoService.getSwapQuote (fixed-input quote). -/
structure SwapQuote where
  amountOut : ℚ
  price : ℚ
  src : String
deriving DecidableEq, Repr

/-- The fields of the parsed PaymentIntent that buildTransferResponse reads.
A missing amount and a non-positive amount are rejected by the same guard in
the source, so amount is carried as a plain rational. -/
structure PaymentIntent where
  recipient : Option String
  amount : ℚ
  currency : Option Currency
  sourceCurrency : Option Currency
deriving Repr

/-- External collaborators of the composer.  A quote call that throws is
modelled as none; getAllowance never throws (the source catches and returns
the string 0), so the raw chain read is a total function. -/
structure ComposeEnv where
  resolvePhone : String → Option Address
  amountInQuote : Currency → Currency → ℚ → Option AmountInQuote
  rawAllowance : Currency → Address → Address → ℚ
  brokerAddress : Address

/-- CeloService.getAllowance: native CELO needs no allowance and reports a
huge constant; otherwise the chain is read (errors already collapsed to 0
inside the oracle). -/
def getAllowance (env : ComposeEnv) (token : Currency) (owner spender : Address) : ℚ :=
  if token = "CELO" then 1000000000 else env.rawAllowance token owner spender

/-- The actionRequired tag of a composed response; the final return of
buildTransferResponse carries no tag (none), which the specification calls a
DIRECT plan. -/
inductive ActionTag where
  | APPROVE_REQUIRED : ActionTag
  | SWAP_THEN_SEND : ActionTag
deriving DecidableEq, Repr

/-- The parts of the buildTransferResponse return value that the claims
inspect.  requiresConfirmation is an Option because the two early returns
(APPROVE_REQUIRED and SWAP_THEN_SEND) do not set the field at all. -/
structure TransferResponse where
  transaction : Tx
  nextTransaction : Option Tx
  actionRequired : Option ActionTag
  requiresConfirmation : Option Bool
  recipient : Address
  amount : ℚ
  currency : Currency
  sourceCurrency : Currency
  sendAmount : ℚ
deriving DecidableEq, Repr

/-- The specification names the untagged final return a DIRECT plan. -/
def planTag (r : TransferResponse) : String :=
  match r.actionRequired with
  | some ActionTag.APPROVE_REQUIRED => "APPROVE_REQUIRED"
  | some ActionTag.SWAP_THEN_SEND => "SWAP_THEN_SEND"
  | none => "DIRECT"

/-- The ordered list of unsigned transactions a response asks the client to
sign: the main transaction, then nextTransaction when present. -/
def planTransactions (r : TransferResponse) : List Tx :=
  r.transaction :: (match r.nextTransaction with
    | some t => [t]
    | none => [])

/-- The payee of a plain payment transaction: the target of the transfer
calldata for an ERC20 transfer, the descriptor target for native CELO. -/
def txPayee (t : Tx) : Address :=
  match t.data with
  | TxData.transfer d _ => d
  | _ => t.dest

/-- The amount, in wei, a plain payment transaction pays out. -/
def txPayAmountWei (t : Tx) : ℚ :=
  match t.data with
  | TxData.transfer _ a => a
  | _ => t.value

/-- PaymentsService.buildTransferResponse, translated clause by clause:
validation guards, the spending-limit ceiling, recipient resolution, the
cross-currency branch (fixed-output quote, broker allowance check and
possible APPROVE_REQUIRED early return, swap build, possible SWAP_THEN_SEND
early return for third-party sends) and the same-currency plain transfer,
with the requiresConfirmation flag computed only on the final return.
The 1% slippage margin is modelled exactly (the toFixed(6) decimal rounding
of the source is a sub-micro-unit formatting detail no claim touches). -/
def buildTransferResponse (env : ComposeEnv) (intent : PaymentIntent)
    (senderAddress : Option Address) : Except PayError TransferResponse := do
  let raw ← match intent.recipient with
    | none => Except.error PayError.missingRecipient
    | some r => Except.ok r
  if intent.amount ≤ 0 then Except.error PayError.invalidAmount else
  if intent.amount > maxTransactionAmount then Except.error PayError.limitExceeded else
  let recipientAddress ← (resolveRecipient env.resolvePhone raw).1
  let destinationCurrency := intent.currency.getD "USDm"
  let sourceCurrency := intent.sourceCurrency.getD destinationCurrency
  if sourceCurrency ≠ destinationCurrency then
    match env.amountInQuote sourceCurrency destinationCurrency intent.amount with
    | none => Except.error PayError.swapBuildFailure
    | some quote =>
      let sendAmount := quote.amountIn
      match senderAddress with
      | some sender =>
        let allowanceAmt := getAllowance env sourceCurrency sender env.brokerAddress
        if allowanceAmt < sendAmount then
          Except.ok
            { transaction :=
                buildApproveTransaction sourceCurrency env.brokerAddress 1000000,
              nextTransaction := none,
              actionRequired := some ActionTag.APPROVE_REQUIRED,
              requiresConfirmation := none,
              recipient := recipientAddress,
              amount := intent.amount,
              currency := destinationCurrency,
              sourceCurrency := sourceCurrency,
              sendAmount := sendAmount }
        else
          let swapTx := buildSwapTransaction env.brokerAddress sourceCurrency
            destinationCurrency intent.amount (sendAmount * (101 / 100))
          let transactionData : Tx :=
            { dest := swapTx.dest, value := swapTx.value, data := swapTx.data,
              feeCurrency := tokenAddress "USDm" }
          if lower recipientAddress ≠ lower sender then
            Except.ok
              { transaction := transactionData,
                nextTransaction := some (buildPaymentTransaction recipientAddress
                  intent.amount destinationCurrency),
                actionRequired := some ActionTag.SWAP_THEN_SEND,
                requiresConfirmation := none,
                recipient := recipientAddress,
                amount := intent.amount,
                currency := destinationCurrency,
                sourceCurrency := sourceCurrency,
                sendAmount := sendAmount }
          else
            Except.ok
              { transaction := transactionData,
                nextTransaction := none,
                actionRequired := none,
                requiresConfirmation := some (intent.amount > confirmationThreshold),
                recipient := recipientAddress,
                amount := intent.amount,
                currency := destinationCurrency,
                sourceCurrency := sourceCurrency,
                sendAmount := sendAmount }
      | none =>
        let swapTx := buildSwapTransaction env.brokerAddress sourceCurrency
          destinationCurrency intent.amount (sendAmount * (101 / 100))
        let transactionData : Tx :=
          { dest := swapTx.dest, value := swapTx.value, data := swapTx.data,
            feeCurrency := tokenAddress "USDm" }
        Except.ok
          { transaction := transactionData,
            nextTransaction := none,
            actionRequired := none,
            requiresConfirmation := some (intent.amount > confirmationThreshold),
            recipient := recipientAddress,
            amount := intent.amount,
            currency := destinationCurrency,
            sourceCurrency := sourceCurrency,
            sendAmount := sendAmount }
  else
    Except.ok
      { transaction := buildPaymentTransaction recipientAddress intent.amount
          sourceCurrency,
        nextTransaction := none,
        actionRequired := none,
        requiresConfirmation := some (intent.amount > confirmationThreshold),
        recipient := recipientAddress,
        amount := intent.amount,
        currency := destinationCurrency,
        sourceCurrency := sourceCurrency,
        sendAmount := intent.amount }

-- ────────────────────────────────────────────────────────────
-- RouteOptimizer (RouteOptimizerService.findBestRoute)
-- ────────────────────────────────────────────────────────────

/-- JavaScript string || : the left side unless it is empty (falsy). -/
def jsOr (a b : String) : String := if a = "" then b else a

/-- RouteQuote of route-optimizer.service.ts.  The source field of the
TypeScript interface is named src here (source names the ambient file in
Lean error output, so the shorter name avoids confusion only; the value is
the same provenance string).  totalCost uses rational division, total with
q / 0 = 0; the claims never read totalCost. -/
structure RouteQuote where
  path : List Currency
  amountOut : ℚ
  totalCost : ℚ
  price : ℚ
  src : String
  hops : ℕ
deriving DecidableEq, Repr, Inhabited

/-- INTERMEDIATE_TOKENS from route-optimizer.service.ts. -/
def INTERMEDIATE_TOKENS : List Currency := ["USDm", "EURm", "BRLm", "KESm", "NGNm"]

/-- The quote collaborator of the optimizer: MentoService.getSwapQuote, with
none modelling a thrown error (no liquidity, provider outage). -/
structure RouteEnv where
  swapQuote : Currency → Currency → ℚ → Option SwapQuote

/-- RouteOptimizerService.getDirectQuote: a thrown quote yields null. -/
def getDirectQuote (env : RouteEnv) (fromT toT : Currency) (amountIn : ℚ) :
    Option RouteQuote :=
  match env.swapQuote fromT toT amountIn with
  | some q =>
      some { path := [fromT, toT], amountOut := q.amountOut,
             totalCost := amountIn - q.amountOut / q.price, price := q.price,
             src := jsOr q.src "mento-direct", hops := 1 }
  | none => none

/-- RouteOptimizerService.getMultiHopQuotes: for each configured
intermediate, skip it when it equals an endpoint or when an endpoint is
native CELO, quote both hops, and silently skip the intermediate when
either hop throws. -/
def getMultiHopQuotes (env : RouteEnv) (fromT toT : Currency) (amountIn : ℚ) :
    List RouteQuote :=
  INTERMEDIATE_TOKENS.filterMap (fun inter =>
    if inter = fromT ∨ inter = toT then none
    else if fromT = "CELO" ∨ toT = "CELO" then none
    else
      match env.swapQuote fromT inter amountIn with
      | none => none
      | some h1 =>
        match env.swapQuote inter toT h1.amountOut with
        | none => none
        | some h2 =>
          let effectivePrice := h2.amountOut / amountIn
          some { path := [fromT, inter, toT], amountOut := h2.amountOut,
                 totalCost := amountIn - h2.amountOut / effectivePrice,
                 price := effectivePrice,
                 src := "mento-multihop-via-" ++ inter, hops := 2 })

/-- The route list as findBestRoute enumerates it: the direct quote when it
exists, then the multi-hop quotes in intermediate order. -/
def routesEnum (env : RouteEnv) (fromT toT : Currency) (amountIn : ℚ) :
    List RouteQuote :=
  (match getDirectQuote env fromT toT amountIn with
   | some d => [d]
   | none => []) ++ getMultiHopQuotes env fromT toT amountIn

/-- One insertion step of the stable descending sort: the new element goes
before the first element whose amountOut it matches or exceeds. -/
def insertRoute (r : RouteQuote) : List RouteQuote → List RouteQuote
  | [] => [r]
  | x :: xs => if x.amountOut ≤ r.amountOut then r :: x :: xs else x :: insertRoute r xs

/-- The sort in findBestRoute: Array.prototype.sort with comparator
(a, b) => b.amountOut - a.amountOut is, by the ECMAScript 2019 standard,
a stable descending sort by amountOut; insertion sort inserting each
element before its equals realizes exactly that order. -/
def sortRoutes : List RouteQuote → List RouteQuote
  | [] => []
  | r :: rs => insertRoute r (sortRoutes rs)

/-- The leftmost route of maximal amountOut in enumeration order: the
route a stable descending sort places first.  This is the selection rule
the specification words as maximum output with ties to the first
enumerated; the fewer-hops tie-break of the specification coincides with
it because the enumeration lists the one-hop direct route first. -/
def firstBest : List RouteQuote → Option RouteQuote
  | [] => none
  | r :: rs =>
    match firstBest rs with
    | none => some r
    | some b => if b.amountOut > r.amountOut then some b else some r

inductive RouteError where
  | noRoute : RouteError
deriving DecidableEq, Repr

/-- RouteComparison of route-optimizer.service.ts.  savings is kept as the
exact rational difference; the toFixed(4) of the source only formats it. -/
structure RouteComparison where
  bestRoute : RouteQuote
  allRoutes : List RouteQuote
  savings : ℚ
deriving Repr

/-- RouteOptimizerService.findBestRoute: enumerate direct and multi-hop
routes, fail when none exists, sort stably by descending amountOut, and
report best, all routes and the savings of the best over the worst. -/
def findBestRoute (env : RouteEnv) (fromT toT : Currency) (amountIn : ℚ) :
    Except RouteError RouteComparison :=
  let routes := routesEnum env fromT toT amountIn
  if routes = [] then Except.error RouteError.noRoute
  else
    let sorted := sortRoutes routes
    Except.ok
      { bestRoute := sorted.headI,
        allRoutes := sorted,
        savings :=
          if 1 < sorted.length then
            sorted.headI.amountOut - sorted.getLastI.amountOut
          else 0 }

-- ────────────────────────────────────────────────────────────
-- Chain receipts and ERC20 transfer verification (CeloService)
-- ────────────────────────────────────────────────────────────

/-- A receipt log entry.  The uint256 payload BigInt(log.data) is carried
directly as a natural number. -/
structure LogEntry where
  address : Address
  topics : List String
  dataVal : ℕ
deriving DecidableEq, Repr

structure Receipt where
  status : String
  logs : List LogEntry
deriving DecidableEq, Repr

/-- keccak256 of Transfer(address,address,uint256), the constant compared
against topics[0] in verifyERC20Transfer. -/
def TRANSFER_TOPIC : String :=
  "0xddf252ad1be2c89b69c2b068fc378daa952ba7f163c4a11628f55a4df523b3ef"

/-- Decoding of the destination from an indexed topic, as the source does:
prepend 0x to topic.substring(26) and lowercase. -/
def decodeTopicAddress (t : String) : String :=
  lower ("0x" ++ String.mk (t.data.drop 26))

/-- CeloService.verifyERC20Transfer on an already fetched receipt: succeed
exactly when the receipt succeeded and some log is a Transfer event of the
expected token whose decoded destination is the expected address and whose
value is at least the expected amount in wei. -/
def verifyERC20Transfer (receipt : Receipt) (expectedTo : Address)
    (expectedAmount : ℚ) (token : Currency) : Bool :=
  if receipt.status ≠ "success" then false
  else
    let tokenAddr := tokenAddress token
    let transferLogs := receipt.logs.filter (fun log =>
      decide (lower log.address = lower tokenAddr) &&
      decide (log.topics.getD 0 "" = TRANSFER_TOPIC))
    transferLogs.any (fun log =>
      decide (decodeTopicAddress (log.topics.getD 2 "") = lower expectedTo) &&
      decide (parseUnits18 expectedAmount ≤ (log.dataVal : ℚ)))

-- ────────────────────────────────────────────────────────────
-- ConfirmationMonitor (PaymentsService.recordTransaction)
-- ────────────────────────────────────────────────────────────

/-- The record statuses written by the monitor. -/
inductive TxStatus where
  | pending : TxStatus
  | success : TxStatus
  | failed : TxStatus
  | failed_verification : TxStatus
  | success_delivered : TxStatus
  | failed_service_error : TxStatus
deriving DecidableEq, Repr

/-- The fulfillment metadata fields the monitor reads.  String fields model
the JavaScript values with the empty string for undefined, matching the ||
fallback chains of the source. -/
structure FulfillMeta where
  provider : String
  detectedNetwork : String
  biller : String
  recipient : String
  originalAmountNgn : Option ℚ
deriving DecidableEq, Repr

/-- The ExecutePaymentDto fields recordTransaction reads.  The optional
type field of the dto is named dtype (type is reserved in Lean), with the
empty string for undefined. -/
structure ExecutePaymentDto where
  txHash : String
  fromAddress : Address
  toAddress : Address
  amount : ℚ
  currency : Currency
  intent : String
  memo : String
  dtype : String
  serviceId : String
  metadata : Option FulfillMeta
deriving DecidableEq, Repr

/-- One request to the fulfillment vendor (NellobytesService.buyAirtime). -/
structure VendorRequest where
  mobile_network : String
  amount : ℚ
  mobile_number : String
  request_id : String
deriving DecidableEq, Repr

/-- External collaborators of the monitor: the treasury env var, the chain
view (none models waitForTransaction throwing: timeout or unknown hash; a
receipt, once mined, is immutable per hash, so the re-fetch inside the
verification step returns the same receipt), and the vendor (false models
buyAirtime throwing). -/
structure MonitorEnv where
  treasuryAddress : Option Address
  receiptFor : String → Option Receipt
  vendorOk : VendorRequest → Bool

/-- The observable effects of one background monitor run: the updateStatus
calls in order, and the vendor invocations. -/
structure MonitorResult where
  updates : List (String × TxStatus)
  vendorCalls : List VendorRequest
deriving DecidableEq, Repr

/-- The continuation recordTransaction installs on waitForTransaction,
translated clause by clause: non-success receipts mark the record failed;
success is recorded, then — only for payments to the configured treasury
carrying NELLOBYTES metadata — the ERC20 transfer is verified (failure is
terminal failed_verification), the vendor is invoked once with the network
fallback chain and the hash as idempotency key, and its outcome recorded as
success_delivered or failed_service_error. -/
def monitorOnReceipt (env : MonitorEnv) (dto : ExecutePaymentDto)
    (receipt : Receipt) : MonitorResult :=
  if receipt.status = "success" then
    let isToTreasury :=
      match env.treasuryAddress with
      | some t => lower dto.toAddress = lower t
      | none => false
    match dto.metadata with
    | some md =>
      if isToTreasury && decide (md.provider = "NELLOBYTES") then
        if verifyERC20Transfer receipt (env.treasuryAddress.getD "")
            dto.amount dto.currency = false then
          { updates := [(dto.txHash, TxStatus.success),
                        (dto.txHash, TxStatus.failed_verification)],
            vendorCalls := [] }
        else
          let networkToUse := jsOr md.detectedNetwork (jsOr md.biller (jsOr md.recipient ""))
          let req : VendorRequest :=
            { mobile_network := networkToUse,
              amount := match md.originalAmountNgn with
                | some a => if a = 0 then 100 else a
                | none => 100,
              mobile_number := md.recipient,
              request_id := dto.txHash }
          if env.vendorOk req then
            { updates := [(dto.txHash, TxStatus.success),
                          (dto.txHash, TxStatus.success_delivered)],
              vendorCalls := [req] }
          else
            { updates := [(dto.txHash, TxStatus.success),
                          (dto.txHash, TxStatus.failed_service_error)],
              vendorCalls := [req] }
      else
        { updates := [(dto.txHash, TxStatus.success)], vendorCalls := [] }
    | none =>
        { updates := [(dto.txHash, TxStatus.success)], vendorCalls := [] }
  else
    { updates := [(dto.txHash, TxStatus.failed)], vendorCalls := [] }

/-- One full background monitor run: await the receipt (the catch handler
marks the record failed when the wait throws), then run the continuation. -/
def runMonitor (env : MonitorEnv) (dto : ExecutePaymentDto) : MonitorResult :=
  match env.receiptFor dto.txHash with
  | none => { updates := [(dto.txHash, TxStatus.failed)], vendorCalls := [] }
  | some receipt => monitorOnReceipt env dto receipt

/-- Monitoring started twice for the same hash (the caller retried the
record-transaction call).  The monitor never reads the record status, so
its effects are independent of interleaving: sequential composition of the
two runs reproduces every schedule of the two promise chains. -/
def runMonitorTwice (env : MonitorEnv) (dto : ExecutePaymentDto) : MonitorResult :=
  let r1 := runMonitor env dto
  let r2 := runMonitor env dto
  { updates := r1.updates ++ r2.updates,
    vendorCalls := r1.vendorCalls ++ r2.vendorCalls }

-- ────────────────────────────────────────────────────────────
-- recordTransaction (synchronous part)
-- ────────────────────────────────────────────────────────────

/-- A transaction record as created by recordTransaction (the type field of
the entity is named rtype: type is reserved in Lean). -/
structure TxRecord where
  fromAddress : Address
  toAddress : Address
  amount : ℚ
  currency : Currency
  txHash : String
  status : TxStatus
  intent : String
  memo : String
  rtype : String
  serviceId : String
  metadata : Option FulfillMeta
deriving DecidableEq, Repr

/-- The record store plus the set of hashes with a background monitor
attached. -/
structure RecordState where
  records : List TxRecord
  monitors : List String
deriving DecidableEq, Repr

/-- Whether pat occurs at the start of l. -/
def begWith : List Char → List Char → Bool
  | [], _ => true
  | _ :: _, [] => false
  | a :: as, b :: bs => a = b && begWith as bs

/-- JavaScript String.prototype.includes, on character lists. -/
def hasSub (pat : List Char) : List Char → Bool
  | [] => pat.isEmpty
  | c :: cs => begWith pat (c :: cs) || hasSub pat cs

/-- The synchronous part of PaymentsService.recordTransaction: validate the
hash against the 0x-plus-64-hex-digits regex before anything else, create
the pending record (with the bill-payment/transfer type fallback computed
from the intent text), and attach a background monitor for the hash.  On
the validation error nothing is created and no monitor is attached: the
exception is thrown before the store or the chain client is touched. -/
def recordTransaction (st : RecordState) (dto : ExecutePaymentDto) :
    Except PayError (RecordState × Bool) :=
  if isValidTxHash dto.txHash = false then Except.error PayError.invalidHashFormat
  else
    let rtype := jsOr dto.dtype
      (if hasSub "buy".data dto.intent.data || hasSub "pay".data dto.intent.data
       then "bill_payment" else "transfer")
    let record : TxRecord :=
      { fromAddress := lower dto.fromAddress,
        toAddress := lower dto.toAddress,
        amount := dto.amount,
        currency := dto.currency,
        txHash := dto.txHash,
        status := TxStatus.pending,
        intent := dto.intent,
        memo := dto.memo,
        rtype := rtype,
        serviceId := dto.serviceId,
        metadata := dto.metadata }
    Except.ok
      ({ records := st.records ++ [record], monitors := st.monitors ++ [dto.txHash] },
       true)

-- ────────────────────────────────────────────────────────────
-- Concrete fixtures used by witnesses and counterexamples
-- ────────────────────────────────────────────────────────────

def wAddrA : Address := "0xaaaaaaaaaaaaaaaaaaaaaaaaaaaaaaaaaaaaaaaa"
def wAddrB : Address := "0xbbbbbbbbbbbbbbbbbbbbbbbbbbbbbbbbbbbbbbbb"
def wAddrC : Address := "0xcccccccccccccccccccccccccccccccccccccccc"

/-- A composer environment for concrete runs: every quote returns a fixed
50-unit source amount, the broker allowance is one million for wAddrB and
zero for all other owners. -/
def wEnv : ComposeEnv :=
  { resolvePhone := fun _ => none,
    amountInQuote := fun _ _ _ => some { amountIn := 50, price := 3, src := "mento-sdk-v1" },
    rawAllowance := fun _ owner _ => if owner = wAddrB then 1000000 else 0,
    brokerAddress := "0x777A8255cA72412f0d706dc03C9D1987306B4CaD" }

/-- Same-currency intent: 50 USDm to wAddrA. -/
def wIntentSame : PaymentIntent :=
  { recipient := some wAddrA, amount := 50, currency := some "USDm",
    sourceCurrency := none }

/-- Cross-currency intent: 150 NGNm paid from USDm to wAddrA. -/
def wIntentCross : PaymentIntent :=
  { recipient := some wAddrA, amount := 150, currency := some "NGNm",
    sourceCurrency := some "USDm" }

/-- A 64-hex-digit transaction hash fixture. -/
def wHash1 : String :=
  "0x1111111111111111111111111111111111111111111111111111111111111111"

/-- A second transaction hash fixture. -/
def wHash2 : String :=
  "0x2222222222222222222222222222222222222222222222222222222222222222"

/-- A third transaction hash fixture. -/
def wHash3 : String :=
  "0x3333333333333333333333333333333333333333333333333333333333333333"

/-- The treasury fixture (RONPAY_TREASURY_ADDRESS). -/
def wTreasury : Address := wAddrC

/-- A Transfer log of 10 * 10 ^ 18 wei of USDm to the treasury fixture. -/
def wGoodLog : LogEntry :=
  { address := tokenAddress "USDm",
    topics := [TRANSFER_TOPIC,
      "0x000000000000000000000000bbbbbbbbbbbbbbbbbbbbbbbbbbbbbbbbbbbbbbbb",
      "0x000000000000000000000000cccccccccccccccccccccccccccccccccccccccc"],
    dataVal := 10000000000000000000 }

/-- A Transfer log of 2 * 10 ^ 18 wei of USDm to the treasury fixture. -/
def wSmallLog : LogEntry :=
  { address := tokenAddress "USDm",
    topics := [TRANSFER_TOPIC,
      "0x000000000000000000000000bbbbbbbbbbbbbbbbbbbbbbbbbbbbbbbbbbbbbbbb",
      "0x000000000000000000000000cccccccccccccccccccccccccccccccccccccccc"],
    dataVal := 2000000000000000000 }

/-- A successful receipt carrying the 10-token transfer to the treasury. -/
def wReceiptGood : Receipt := { status := "success", logs := [wGoodLog] }

/-- A reverted receipt. -/
def wReceiptReverted : Receipt := { status := "reverted", logs := [wGoodLog] }

/-- A successful receipt whose only transfer is below the expected amount. -/
def wReceiptSmall : Receipt := { status := "success", logs := [wSmallLog] }

/-- Fulfillment metadata naming the NELLOBYTES vendor. -/
def wMeta : FulfillMeta :=
  { provider := "NELLOBYTES", detectedNetwork := "MTN", biller := "",
    recipient := "08012345678", originalAmountNgn := some 1000 }

/-- A monitor environment whose vendor always throws: hash 1 confirms with
the good receipt, hash 2 reverts, hash 3 confirms with the short transfer. -/
def wMonEnv : MonitorEnv :=
  { treasuryAddress := some wTreasury,
    receiptFor := fun h =>
      if h = wHash1 then some wReceiptGood
      else if h = wHash2 then some wReceiptReverted
      else if h = wHash3 then some wReceiptSmall
      else none,
    vendorOk := fun _ => false }

/-- A treasury payment dto for the given hash: 5 USDm with NELLOBYTES
metadata. -/
def wDtoFor (h : String) : ExecutePaymentDto :=
  { txHash := h, fromAddress := wAddrB, toAddress := wTreasury,
    amount := 5, currency := "USDm", intent := "buy airtime", memo := "",
    dtype := "", serviceId := "", metadata := some wMeta }

/-- The vendor request the monitor builds for the wDtoFor fixtures. -/
def wVendorReq (h : String) : VendorRequest :=
  { mobile_network := "MTN", amount := 1000,
    mobile_number := "08012345678", request_id := h }

/-- A quote collaborator for route fixtures: the direct NGNm to USDm pair
quotes 10 out, NGNm to EURm quotes 9, EURm to USDm quotes 12; every other
pair (the BRLm and KESm intermediates included) throws. -/
def wRouteEnv : RouteEnv :=
  { swapQuote := fun f t _ =>
      if f = "NGNm" ∧ t = "USDm" then
        some { amountOut := 10, price := 1, src := "mento-sdk-v1" }
      else if f = "NGNm" ∧ t = "EURm" then
        some { amountOut := 9, price := 1, src := "mento-sdk-v1" }
      else if f = "EURm" ∧ t = "USDm" then
        some { amountOut := 12, price := 1, src := "mento-sdk-v1" }
      else none }

/-- A quote collaborator that always throws. -/
def wRouteEnvDead : RouteEnv := { swapQuote := fun _ _ _ => none }

/-- The direct route wRouteEnv produces for 1000 NGNm to USDm. -/
def wRouteDirect : RouteQuote :=
  { path := ["NGNm", "USDm"], amountOut := 10, totalCost := 990, price := 1,
    src := "mento-sdk-v1", hops := 1 }

/-- The two-hop route via EURm wRouteEnv produces for 1000 NGNm to USDm. -/
def wRouteEUR : RouteQuote :=
  { path := ["NGNm", "EURm", "USDm"], amountOut := 12, totalCost := 0,
    price := 3 / 250, src := "mento-multihop-via-EURm", hops := 2 }

end RonPay

-- ────────────────────────────────────────────────────────────
-- Theorems
-- ────────────────────────────────────────────────────────────

namespace RonPay

section ComposeLemmas

variable (env : ComposeEnv) (intent : PaymentIntent)

/-- The payee of a built payment transaction is the requested address, for
both the native and the ERC20 branch. -/
theorem txPayee_buildPaymentTransaction (a : Address) (amt : ℚ) (tok : Currency) :
    txPayee (buildPaymentTransaction a amt tok) = a := by
  by_cases h : tok = "CELO" <;> simp [buildPaymentTransaction, txPayee, h]

/-- The amount of a built payment transaction is the requested amount in
wei, for both the native and the ERC20 branch. -/
theorem txPayAmountWei_buildPaymentTransaction (a : Address) (amt : ℚ) (tok : Currency) :
    txPayAmountWei (buildPaymentTransaction a amt tok) = parseUnits18 amt := by
  by_cases h : tok = "CELO" <;> simp [buildPaymentTransaction, txPayAmountWei, h]

/-- Any intent whose amount exceeds the ceiling is rejected before the
recipient is resolved or any plan is built. -/
theorem compose_limit_reject (sender : Option Address) (raw : String)
    (hraw : intent.recipient = some raw)
    (hamt : 0 < intent.amount)
    (hmax : maxTransactionAmount < intent.amount) :
    buildTransferResponse env intent sender = Except.error PayError.limitExceeded := by
  have h1 : ¬ intent.amount ≤ 0 := not_le.mpr hamt
  have h2 : intent.amount > maxTransactionAmount := hmax
  simp [buildTransferResponse, hraw, h1, h2, bind, Except.bind]

/-- Characterization of the same-currency branch: the final return with the
plain transfer and the confirmation flag. -/
theorem compose_direct_eq (sender : Option Address) (raw : String)
    (recipientAddress : Address)
    (hraw : intent.recipient = some raw)
    (hamt : 0 < intent.amount)
    (hmax : intent.amount ≤ maxTransactionAmount)
    (hres : (resolveRecipient env.resolvePhone raw).1 = Except.ok recipientAddress)
    (hcur : intent.sourceCurrency.getD (intent.currency.getD "USDm") =
      intent.currency.getD "USDm") :
    buildTransferResponse env intent sender = Except.ok
      { transaction := buildPaymentTransaction recipientAddress intent.amount
          (intent.currency.getD "USDm"),
        nextTransaction := none,
        actionRequired := none,
        requiresConfirmation := some (intent.amount > confirmationThreshold),
        recipient := recipientAddress,
        amount := intent.amount,
        currency := intent.currency.getD "USDm",
        sourceCurrency := intent.currency.getD "USDm",
        sendAmount := intent.amount } := by
  have h1 : ¬ intent.amount ≤ 0 := not_le.mpr hamt
  have h2 : ¬ intent.amount > maxTransactionAmount := not_lt.mpr hmax
  simp [buildTransferResponse, hraw, h1, h2, hres, hcur, bind, Except.bind]

/-- Characterization of the cross-currency branch with a known sender whose
broker allowance is below the required source amount: the APPROVE_REQUIRED
early return, carrying only the large approval transaction and no
confirmation flag. -/
theorem compose_approve_eq (sender : Address) (raw : String)
    (recipientAddress : Address) (q : AmountInQuote)
    (hraw : intent.recipient = some raw)
    (hamt : 0 < intent.amount)
    (hmax : intent.amount ≤ maxTransactionAmount)
    (hres : (resolveRecipient env.resolvePhone raw).1 = Except.ok recipientAddress)
    (hcur : intent.sourceCurrency.getD (intent.currency.getD "USDm") ≠
      intent.currency.getD "USDm")
    (hq : env.amountInQuote (intent.sourceCurrency.getD (intent.currency.getD "USDm"))
      (intent.currency.getD "USDm") intent.amount = some q)
    (hall : getAllowance env (intent.sourceCurrency.getD (intent.currency.getD "USDm"))
      sender env.brokerAddress < q.amountIn) :
    buildTransferResponse env intent (some sender) = Except.ok
      { transaction := buildApproveTransaction
          (intent.sourceCurrency.getD (intent.currency.getD "USDm"))
          env.brokerAddress 1000000,
        nextTransaction := none,
        actionRequired := some ActionTag.APPROVE_REQUIRED,
        requiresConfirmation := none,
        recipient := recipientAddress,
        amount := intent.amount,
        currency := intent.currency.getD "USDm",
        sourceCurrency := intent.sourceCurrency.getD (intent.currency.getD "USDm"),
        sendAmount := q.amountIn } := by
  have h1 : ¬ intent.amount ≤ 0 := not_le.mpr hamt
  have h2 : ¬ intent.amount > maxTransactionAmount := not_lt.mpr hmax
  simp [buildTransferResponse, hraw, h1, h2, hres, hcur, hq, hall, bind, Except.bind]

/-- Characterization of the cross-currency branch with a known sender,
sufficient allowance and a third-party recipient: the SWAP_THEN_SEND early
return, whose second transaction is the plain transfer of the requested
destination amount to the resolved recipient, with no confirmation flag. -/
theorem compose_swapSend_eq (sender : Address) (raw : String)
    (recipientAddress : Address) (q : AmountInQuote)
    (hraw : intent.recipient = some raw)
    (hamt : 0 < intent.amount)
    (hmax : intent.amount ≤ maxTransactionAmount)
    (hres : (resolveRecipient env.resolvePhone raw).1 = Except.ok recipientAddress)
    (hcur : intent.sourceCurrency.getD (intent.currency.getD "USDm") ≠
      intent.currency.getD "USDm")
    (hq : env.amountInQuote (intent.sourceCurrency.getD (intent.currency.getD "USDm"))
      (intent.currency.getD "USDm") intent.amount = some q)
    (hall : ¬ getAllowance env (intent.sourceCurrency.getD (intent.currency.getD "USDm"))
      sender env.brokerAddress < q.amountIn)
    (hthird : lower recipientAddress ≠ lower sender) :
    buildTransferResponse env intent (some sender) = Except.ok
      { transaction :=
          { dest := env.brokerAddress, value := 0,
            data := TxData.swap
              (tokenAddress (intent.sourceCurrency.getD (intent.currency.getD "USDm")))
              (tokenAddress (intent.currency.getD "USDm"))
              (parseUnits18 intent.amount)
              (parseUnits18 (q.amountIn * (101 / 100))),
            feeCurrency := tokenAddress "USDm" },
        nextTransaction := some (buildPaymentTransaction recipientAddress
          intent.amount (intent.currency.getD "USDm")),
        actionRequired := some ActionTag.SWAP_THEN_SEND,
        requiresConfirmation := none,
        recipient := recipientAddress,
        amount := intent.amount,
        currency := intent.currency.getD "USDm",
        sourceCurrency := intent.sourceCurrency.getD (intent.currency.getD "USDm"),
        sendAmount := q.amountIn } := by
  have h1 : ¬ intent.amount ≤ 0 := not_le.mpr hamt
  have h2 : ¬ intent.amount > maxTransactionAmount := not_lt.mpr hmax
  simp [buildTransferResponse, hraw, h1, h2, hres, hcur, hq, hall, hthird,
    buildSwapTransaction, bind, Except.bind]

/-- Characterization of the cross-currency branch with a known sender,
sufficient allowance and the payer as recipient: the single swap
transaction through the final return, with the confirmation flag. -/
theorem compose_swapSelf_eq (sender : Address) (raw : String)
    (recipientAddress : Address) (q : AmountInQuote)
    (hraw : intent.recipient = some raw)
    (hamt : 0 < intent.amount)
    (hmax : intent.amount ≤ maxTransactionAmount)
    (hres : (resolveRecipient env.resolvePhone raw).1 = Except.ok recipientAddress)
    (hcur : intent.sourceCurrency.getD (intent.currency.getD "USDm") ≠
      intent.currency.getD "USDm")
    (hq : env.amountInQuote (intent.sourceCurrency.getD (intent.currency.getD "USDm"))
      (intent.currency.getD "USDm") intent.amount = some q)
    (hall : ¬ getAllowance env (intent.sourceCurrency.getD (intent.currency.getD "USDm"))
      sender env.brokerAddress < q.amountIn)
    (hself : lower recipientAddress = lower sender) :
    buildTransferResponse env intent (some sender) = Except.ok
      { transaction :=
          { dest := env.brokerAddress, value := 0,
            data := TxData.swap
              (tokenAddress (intent.sourceCurrency.getD (intent.currency.getD "USDm")))
              (tokenAddress (intent.currency.getD "USDm"))
              (parseUnits18 intent.amount)
              (parseUnits18 (q.amountIn * (101 / 100))),
            feeCurrency := tokenAddress "USDm" },
        nextTransaction := none,
        actionRequired := none,
        requiresConfirmation := some (intent.amount > confirmationThreshold),
        recipient := recipientAddress,
        amount := intent.amount,
        currency := intent.currency.getD "USDm",
        sourceCurrency := intent.sourceCurrency.getD (intent.currency.getD "USDm"),
        sendAmount := q.amountIn } := by
  have h1 : ¬ intent.amount ≤ 0 := not_le.mpr hamt
  have h2 : ¬ intent.amount > maxTransactionAmount := not_lt.mpr hmax
  simp [buildTransferResponse, hraw, h1, h2, hres, hcur, hq, hall, hself,
    buildSwapTransaction, bind, Except.bind]

/-- Inversion over every return site of buildTransferResponse: the
confirmation flag is present exactly on the untagged final returns, and
absent on both tagged early returns. -/
theorem compose_flag_cases (env : ComposeEnv) (sender : Option Address)
    (r : TransferResponse)
    (h : buildTransferResponse env intent sender = Except.ok r) :
    (r.actionRequired = none →
      r.requiresConfirmation = some (decide (intent.amount > confirmationThreshold))) ∧
    (r.actionRequired ≠ none → r.requiresConfirmation = none) := by
  rcases hrec : intent.recipient with _ | raw <;>
    rw [buildTransferResponse, hrec] at h <;>
    simp only [bind, Except.bind] at h
  · cases h
  · split at h
    · cases h
    split at h
    · cases h
    split at h
    · cases h
    split at h
    · split at h
      · cases h
      split at h
      · split at h
        · simp only [Except.ok.injEq] at h
          subst h
          simp
        split at h
        · simp only [Except.ok.injEq] at h
          subst h
          simp
        · simp only [Except.ok.injEq] at h
          subst h
          simp
      · simp only [Except.ok.injEq] at h
        subst h
        simp
    · simp only [Except.ok.injEq] at h
      subst h
      simp

end ComposeLemmas

/-- C8: an identifier already matching the canonical address shape is
returned unchanged with zero invocations of the identity-lookup
collaborator; any other identifier is delegated to the lookup, whose hit is
returned and whose miss fails with the unresolved-recipient error. -/
theorem c8_resolveRecipient_spec (resolvePhone : String → Option Address)
    (raw : String) :
    (isValidAddress raw = true →
      resolveRecipient resolvePhone raw = (Except.ok raw, 0)) ∧
    (isValidAddress raw = false → ∀ a, resolvePhone raw = some a →
      resolveRecipient resolvePhone raw = (Except.ok a, 1)) ∧
    (isValidAddress raw = false → resolvePhone raw = none →
      resolveRecipient resolvePhone raw =
        (Except.error PayError.unresolvedRecipient, 1)) := by
  refine ⟨?_, ?_, ?_⟩
  · intro h
    simp [resolveRecipient, h]
  · intro h a ha
    simp [resolveRecipient, h, ha]
  · intro h ha
    simp [resolveRecipient, h, ha]

/-- Witness for C8 at concrete inputs: a canonical 40-hex-digit address, a
mapped phone-like identifier, and an unmapped one. -/
theorem c8_resolveRecipient_spec_witness :
    resolveRecipient (fun s => if s = "+2348012345678" then some "0xAbCd" else none)
        "0x1234567890abcdef1234567890ABCDEF12345678" =
      (Except.ok "0x1234567890abcdef1234567890ABCDEF12345678", 0) ∧
    resolveRecipient (fun s => if s = "+2348012345678" then some "0xAbCd" else none)
        "+2348012345678" = (Except.ok "0xAbCd", 1) ∧
    resolveRecipient (fun s => if s = "+2348012345678" then some "0xAbCd" else none)
        "bob" = (Except.error PayError.unresolvedRecipient, 1) := by
  refine ⟨?_, ?_, ?_⟩
  · exact (c8_resolveRecipient_spec _ _).1 (by decide)
  · exact (c8_resolveRecipient_spec _ _).2.1 (by decide) _ (by decide)
  · exact (c8_resolveRecipient_spec _ _).2.2 (by decide) (by decide)

/-- C1: for accepted intents, the composed plan is a one-step DIRECT plain
transfer when currencies agree; an APPROVE_REQUIRED plan holding only the
approval transaction when they differ and the broker allowance is below the
required source amount; and a two-step SWAP_THEN_SEND plan, whose second
transaction pays exactly the requested destination amount to the resolved
recipient, when the allowance suffices and the recipient differs from the
payer. -/
theorem c1_compose_plan_shapes (env : ComposeEnv) (intent : PaymentIntent)
    (sender : Address) (raw recipientAddress : Address)
    (hraw : intent.recipient = some raw)
    (hamt : 0 < intent.amount)
    (hmax : intent.amount ≤ maxTransactionAmount)
    (hres : (resolveRecipient env.resolvePhone raw).1 = Except.ok recipientAddress) :
    (intent.sourceCurrency.getD (intent.currency.getD "USDm") =
        intent.currency.getD "USDm" →
      ∃ r, buildTransferResponse env intent (some sender) = Except.ok r ∧
        planTag r = "DIRECT" ∧
        planTransactions r = [buildPaymentTransaction recipientAddress intent.amount
          (intent.currency.getD "USDm")] ∧
        txPayee r.transaction = recipientAddress ∧
        txPayAmountWei r.transaction = parseUnits18 intent.amount) ∧
    (∀ q, intent.sourceCurrency.getD (intent.currency.getD "USDm") ≠
        intent.currency.getD "USDm" →
      env.amountInQuote (intent.sourceCurrency.getD (intent.currency.getD "USDm"))
        (intent.currency.getD "USDm") intent.amount = some q →
      getAllowance env (intent.sourceCurrency.getD (intent.currency.getD "USDm"))
        sender env.brokerAddress < q.amountIn →
      ∃ r, buildTransferResponse env intent (some sender) = Except.ok r ∧
        planTag r = "APPROVE_REQUIRED" ∧
        planTransactions r = [buildApproveTransaction
          (intent.sourceCurrency.getD (intent.currency.getD "USDm"))
          env.brokerAddress 1000000]) ∧
    (∀ q, intent.sourceCurrency.getD (intent.currency.getD "USDm") ≠
        intent.currency.getD "USDm" →
      env.amountInQuote (intent.sourceCurrency.getD (intent.currency.getD "USDm"))
        (intent.currency.getD "USDm") intent.amount = some q →
      ¬ getAllowance env (intent.sourceCurrency.getD (intent.currency.getD "USDm"))
        sender env.brokerAddress < q.amountIn →
      lower recipientAddress ≠ lower sender →
      ∃ r, buildTransferResponse env intent (some sender) = Except.ok r ∧
        planTag r = "SWAP_THEN_SEND" ∧
        (planTransactions r).length = 2 ∧
        r.nextTransaction = some (buildPaymentTransaction recipientAddress
          intent.amount (intent.currency.getD "USDm")) ∧
        (∀ t, r.nextTransaction = some t → txPayee t = recipientAddress ∧
          txPayAmountWei t = parseUnits18 intent.amount)) := by
  refine ⟨?_, ?_, ?_⟩
  · intro hcur
    refine ⟨_, compose_direct_eq env intent (some sender) raw recipientAddress
      hraw hamt hmax hres hcur, rfl, ?_, ?_, ?_⟩
    · simp [planTransactions]
    · exact txPayee_buildPaymentTransaction _ _ _
    · exact txPayAmountWei_buildPaymentTransaction _ _ _
  · intro q hcur hq hall
    refine ⟨_, compose_approve_eq env intent sender raw recipientAddress q
      hraw hamt hmax hres hcur hq hall, rfl, ?_⟩
    simp [planTransactions]
  · intro q hcur hq hall hthird
    refine ⟨_, compose_swapSend_eq env intent sender raw recipientAddress q
      hraw hamt hmax hres hcur hq hall hthird, rfl, ?_, rfl, ?_⟩
    · simp [planTransactions]
    · intro t ht
      simp only [Option.some.injEq] at ht
      subst ht
      exact ⟨txPayee_buildPaymentTransaction _ _ _,
        txPayAmountWei_buildPaymentTransaction _ _ _⟩

/-- Witness for C1 at concrete inputs: the same environment composed for a
same-currency intent, a cross-currency intent from a sender with zero
allowance, and a cross-currency intent from a sender with ample allowance
and a distinct recipient. -/
theorem c1_compose_plan_shapes_witness :
    (∃ r, buildTransferResponse wEnv wIntentSame (some wAddrB) = Except.ok r ∧
      planTag r = "DIRECT" ∧
      planTransactions r = [buildPaymentTransaction wAddrA 50 "USDm"] ∧
      txPayee r.transaction = wAddrA ∧
      txPayAmountWei r.transaction = parseUnits18 50) ∧
    (∃ r, buildTransferResponse wEnv wIntentCross (some wAddrC) = Except.ok r ∧
      planTag r = "APPROVE_REQUIRED" ∧
      planTransactions r = [buildApproveTransaction "USDm" wEnv.brokerAddress 1000000]) ∧
    (∃ r, buildTransferResponse wEnv wIntentCross (some wAddrB) = Except.ok r ∧
      planTag r = "SWAP_THEN_SEND" ∧
      (planTransactions r).length = 2 ∧
      r.nextTransaction = some (buildPaymentTransaction wAddrA 150 "NGNm") ∧
      (∀ t, r.nextTransaction = some t → txPayee t = wAddrA ∧
        txPayAmountWei t = parseUnits18 150)) := by
  refine ⟨?_, ?_, ?_⟩
  · exact (c1_compose_plan_shapes wEnv wIntentSame wAddrB wAddrA wAddrA
      rfl (by norm_num [wIntentSame]) (by norm_num [wIntentSame, maxTransactionAmount])
      rfl).1 rfl
  · exact (c1_compose_plan_shapes wEnv wIntentCross wAddrC wAddrA wAddrA
      rfl (by norm_num [wIntentCross]) (by norm_num [wIntentCross, maxTransactionAmount])
      rfl).2.1
      { amountIn := 50, price := 3, src := "mento-sdk-v1" }
      (by decide) rfl
      (by norm_num [getAllowance, wEnv, wIntentCross, wAddrB, wAddrC]
          rw [if_neg (by decide), if_neg (by decide)]
          norm_num)
  · exact (c1_compose_plan_shapes wEnv wIntentCross wAddrB wAddrA wAddrA
      rfl (by norm_num [wIntentCross]) (by norm_num [wIntentCross, maxTransactionAmount])
      rfl).2.2
      { amountIn := 50, price := 3, src := "mento-sdk-v1" }
      (by decide) rfl
      (by norm_num [getAllowance, wEnv, wIntentCross, wAddrB]
          rw [if_neg (by decide)]
          norm_num)
      (by decide)

/-- C10: recordTransaction validates the transaction hash against the
0x-plus-64-hex-digits pattern before anything else: a non-matching hash is
rejected with the bad-request error, and any accepted call had a matching
hash — so on the error no record is created and no monitor is attached. -/
theorem c10_recordTransaction_hash_validation (st : RecordState)
    (dto : ExecutePaymentDto) :
    (isValidTxHash dto.txHash = false →
      recordTransaction st dto = Except.error PayError.invalidHashFormat) ∧
    (∀ st2 ack, recordTransaction st dto = Except.ok (st2, ack) →
      isValidTxHash dto.txHash = true ∧
      st2.records = st.records ++ [{
        fromAddress := lower dto.fromAddress,
        toAddress := lower dto.toAddress,
        amount := dto.amount,
        currency := dto.currency,
        txHash := dto.txHash,
        status := TxStatus.pending,
        intent := dto.intent,
        memo := dto.memo,
        rtype := jsOr dto.dtype
          (if hasSub "buy".data dto.intent.data || hasSub "pay".data dto.intent.data
           then "bill_payment" else "transfer"),
        serviceId := dto.serviceId,
        metadata := dto.metadata }] ∧
      st2.monitors = st.monitors ++ [dto.txHash]) := by
  constructor
  · intro h
    simp [recordTransaction, h]
  · intro st2 ack h
    by_cases hv : isValidTxHash dto.txHash = false
    · simp [recordTransaction, hv] at h
    · rw [Bool.not_eq_false] at hv
      simp [recordTransaction, hv] at h
      obtain ⟨h1, h2⟩ := h
      subst h1
      refine ⟨hv, ?_, ?_⟩ <;> simp

/-- Witness for C10: a malformed 5-character hash is rejected, and a
well-formed 64-hex-digit hash is recorded with a monitor attached. -/
theorem c10_recordTransaction_hash_validation_witness :
    (recordTransaction { records := [], monitors := [] }
      { txHash := "0x123", fromAddress := wAddrA, toAddress := wAddrB,
        amount := 5, currency := "USDm", intent := "", memo := "", dtype := "",
        serviceId := "", metadata := none } =
      Except.error PayError.invalidHashFormat) := by
  exact (c10_recordTransaction_hash_validation _ _).1 (by decide)

/-- C7 counterexample: it is not true that every plan compose returns
carries a requiresConfirmation flag set exactly when the amount exceeds the
confirmation threshold — the APPROVE_REQUIRED early return for a
150-over-threshold cross-currency intent carries no flag at all. -/
theorem c7_counterexample :
    ¬ (∀ (env : ComposeEnv) (intent : PaymentIntent) (sender : Option Address)
        (r : TransferResponse),
        buildTransferResponse env intent sender = Except.ok r →
        r.requiresConfirmation =
          some (decide (intent.amount > confirmationThreshold))) := by
  intro hclaim
  have heq := compose_approve_eq wEnv wIntentCross wAddrC wAddrA wAddrA
    { amountIn := 50, price := 3, src := "mento-sdk-v1" }
    rfl (by norm_num [wIntentCross]) (by norm_num [wIntentCross, maxTransactionAmount])
    rfl (by decide) rfl
    (by norm_num [getAllowance, wEnv, wIntentCross, wAddrB, wAddrC]
        rw [if_neg (by decide), if_neg (by decide)]
        norm_num)
  have hflag := hclaim wEnv wIntentCross (some wAddrC) _ heq
  simp at hflag

/-- C7 (amended): before any plan is built, compose rejects every intent
whose amount strictly exceeds the maximum-transaction ceiling; every plan
returned through the untagged (DIRECT) final path carries a
requiresConfirmation flag set exactly when the amount strictly exceeds the
confirmation threshold — exactly at the threshold it is false, one unit
above it is true — while the APPROVE_REQUIRED and SWAP_THEN_SEND early
returns carry no flag. -/
theorem c7_limits_and_confirmation_flag (env : ComposeEnv)
    (intent : PaymentIntent) (sender : Option Address) :
    (∀ raw, intent.recipient = some raw → 0 < intent.amount →
      maxTransactionAmount < intent.amount →
      buildTransferResponse env intent sender =
        Except.error PayError.limitExceeded) ∧
    (∀ r, buildTransferResponse env intent sender = Except.ok r →
      (r.actionRequired = none →
        r.requiresConfirmation =
          some (decide (intent.amount > confirmationThreshold))) ∧
      (r.actionRequired ≠ none → r.requiresConfirmation = none)) ∧
    (∀ r, buildTransferResponse env intent sender = Except.ok r →
      r.actionRequired = none →
      (intent.amount = confirmationThreshold →
        r.requiresConfirmation = some false) ∧
      (intent.amount = confirmationThreshold + 1 →
        r.requiresConfirmation = some true)) := by
  refine ⟨?_, ?_, ?_⟩
  · intro raw hraw hpos hbig
    exact compose_limit_reject env intent sender raw hraw hpos hbig
  · intro r h
    exact compose_flag_cases intent env sender r h
  · intro r h hdir
    have hflag := (compose_flag_cases intent env sender r h).1 hdir
    constructor
    · intro hat
      rw [hflag, hat]
      norm_num
    · intro habove
      rw [hflag, habove]
      norm_num [confirmationThreshold]

/-- Witness for C7 (amended) at concrete inputs: a 2000-unit intent is
rejected by the ceiling, a 100-unit plan is returned unflagged, a 101-unit
plan is returned flagged, and an APPROVE_REQUIRED plan carries no flag. -/
theorem c7_limits_and_confirmation_flag_witness :
    (buildTransferResponse wEnv
      { recipient := some wAddrA, amount := 2000, currency := some "USDm",
        sourceCurrency := none } (some wAddrB) =
      Except.error PayError.limitExceeded) ∧
    (∃ r, buildTransferResponse wEnv
        { recipient := some wAddrA, amount := 100, currency := some "USDm",
          sourceCurrency := none } (some wAddrB) = Except.ok r ∧
      r.requiresConfirmation = some false) ∧
    (∃ r, buildTransferResponse wEnv
        { recipient := some wAddrA, amount := 101, currency := some "USDm",
          sourceCurrency := none } (some wAddrB) = Except.ok r ∧
      r.requiresConfirmation = some true) ∧
    (∃ r, buildTransferResponse wEnv wIntentCross (some wAddrC) = Except.ok r ∧
      r.requiresConfirmation = none) := by
  refine ⟨?_, ?_, ?_, ?_⟩
  · exact (c7_limits_and_confirmation_flag wEnv _ (some wAddrB)).1 wAddrA rfl
      (by norm_num) (by norm_num [maxTransactionAmount])
  · have heq := compose_direct_eq wEnv
      { recipient := some wAddrA, amount := 100, currency := some "USDm",
        sourceCurrency := none } (some wAddrB) wAddrA wAddrA
      rfl (by norm_num) (by norm_num [maxTransactionAmount]) rfl rfl
    refine ⟨_, heq, ?_⟩
    have := ((c7_limits_and_confirmation_flag wEnv _ (some wAddrB)).2.2 _ heq rfl).1 rfl
    simpa using this
  · have heq := compose_direct_eq wEnv
      { recipient := some wAddrA, amount := 101, currency := some "USDm",
        sourceCurrency := none } (some wAddrB) wAddrA wAddrA
      rfl (by norm_num) (by norm_num [maxTransactionAmount]) rfl rfl
    refine ⟨_, heq, ?_⟩
    have := ((c7_limits_and_confirmation_flag wEnv _ (some wAddrB)).2.2 _ heq rfl).2
      (by norm_num [confirmationThreshold])
    simpa using this
  · have heq := compose_approve_eq wEnv wIntentCross wAddrC wAddrA wAddrA
      { amountIn := 50, price := 3, src := "mento-sdk-v1" }
      rfl (by norm_num [wIntentCross]) (by norm_num [wIntentCross, maxTransactionAmount])
      rfl (by decide) rfl
      (by norm_num [getAllowance, wEnv, wIntentCross, wAddrB, wAddrC]
          rw [if_neg (by decide), if_neg (by decide)]
          norm_num)
    refine ⟨_, heq, ?_⟩
    exact ((c7_limits_and_confirmation_flag wEnv _ (some wAddrC)).2.1 _ heq).2
      (by simp)

-- ────────────────────────────────────────────────────────────
-- Monitor lemmas and claims C2, C3, C4
-- ────────────────────────────────────────────────────────────

/-- Evaluation: the good receipt passes verification for 5 USDm to the
treasury fixture. -/
theorem wVerify_good : verifyERC20Transfer wReceiptGood wTreasury 5 "USDm" = true := by
  simp [verifyERC20Transfer, wReceiptGood, wGoodLog, wTreasury]
  exact ⟨by decide, by norm_num [parseUnits18]⟩

/-- Evaluation: the short-transfer receipt fails verification for 5 USDm to
the treasury fixture (2 tokens arrived, 5 expected). -/
theorem wVerify_small : verifyERC20Transfer wReceiptSmall wTreasury 5 "USDm" = false := by
  simp [verifyERC20Transfer, wReceiptSmall, wSmallLog, wTreasury]
  intro h
  norm_num [parseUnits18]

/-- Evaluation: one monitor run on the verified receipt with a throwing
vendor marks success, calls the vendor once and ends failed_service_error. -/
theorem wRun_good : runMonitor wMonEnv (wDtoFor wHash1) =
    { updates := [(wHash1, TxStatus.success), (wHash1, TxStatus.failed_service_error)],
      vendorCalls := [wVendorReq wHash1] } := by
  have hrec : wMonEnv.receiptFor (wDtoFor wHash1).txHash = some wReceiptGood := by decide
  have hsts : wReceiptGood.status = "success" := rfl
  simp [runMonitor, hrec, monitorOnReceipt, wDtoFor, wMonEnv, wMeta,
    jsOr, wVendorReq, wVerify_good, hsts]

/-- C2 is violated by the code: there is no check-and-set gate on the
record status, so starting monitoring twice for the same hash reaches the
fulfillment vendor twice and records failed_service_error twice when the
vendor throws — under every interleaving, since the monitor never reads the
record status. -/
theorem c2_double_monitor_double_fulfillment :
    (runMonitorTwice wMonEnv (wDtoFor wHash1)).vendorCalls =
      [wVendorReq wHash1, wVendorReq wHash1] ∧
    (runMonitorTwice wMonEnv (wDtoFor wHash1)).updates =
      [(wHash1, TxStatus.success), (wHash1, TxStatus.failed_service_error),
       (wHash1, TxStatus.success), (wHash1, TxStatus.failed_service_error)] := by
  constructor <;> simp [runMonitorTwice, wRun_good]

/-- C3: the monitor never invokes the fulfillment vendor without on-chain
proof of payment: a non-success receipt marks the record failed with no
vendor call; a success receipt on the fulfillment path whose verification
finds no matching transfer marks the record failed_verification with no
vendor call; and any run that did call the vendor had a passing
verification of the receipt for its hash. -/
theorem c3_no_vendor_without_proof (env : MonitorEnv) (dto : ExecutePaymentDto)
    (receipt : Receipt) (hrec : env.receiptFor dto.txHash = some receipt) :
    (receipt.status ≠ "success" →
      runMonitor env dto =
        { updates := [(dto.txHash, TxStatus.failed)], vendorCalls := [] }) ∧
    (∀ t md, receipt.status = "success" → env.treasuryAddress = some t →
      lower dto.toAddress = lower t → dto.metadata = some md →
      md.provider = "NELLOBYTES" →
      verifyERC20Transfer receipt t dto.amount dto.currency = false →
      runMonitor env dto =
        { updates := [(dto.txHash, TxStatus.success),
                      (dto.txHash, TxStatus.failed_verification)],
          vendorCalls := [] }) ∧
    ((runMonitor env dto).vendorCalls ≠ [] →
      verifyERC20Transfer receipt (env.treasuryAddress.getD "") dto.amount
        dto.currency = true) := by
  refine ⟨?_, ?_, ?_⟩
  · intro hst
    simp [runMonitor, hrec, monitorOnReceipt, hst]
  · intro t md hst ht htreas hmd hprov hver
    simp [runMonitor, hrec, monitorOnReceipt, hst, ht, htreas, hmd, hprov, hver]
  · intro hne
    by_cases hv : verifyERC20Transfer receipt (env.treasuryAddress.getD "")
        dto.amount dto.currency = true
    · exact hv
    · exfalso
      apply hne
      rw [Bool.not_eq_true] at hv
      by_cases hst : receipt.status = "success"
      · rcases hmd : dto.metadata with _ | md
        · simp [runMonitor, hrec, monitorOnReceipt, hst, hmd]
        · rcases henv : env.treasuryAddress with _ | t
          · simp [runMonitor, hrec, monitorOnReceipt, hst, hmd, henv]
          · rw [henv] at hv
            simp only [Option.getD_some] at hv
            by_cases haddr : lower dto.toAddress = lower t
            · by_cases hprov : md.provider = "NELLOBYTES"
              · simp [runMonitor, hrec, monitorOnReceipt, hst, hmd, henv,
                  haddr, hprov, hv]
              · simp [runMonitor, hrec, monitorOnReceipt, hst, hmd, henv,
                  haddr, hprov]
            · simp [runMonitor, hrec, monitorOnReceipt, hst, hmd, henv, haddr]
      · simp [runMonitor, hrec, monitorOnReceipt, hst]

/-- Witness for C3: the reverted receipt ends failed with no vendor call,
and the success receipt with a too-small transfer ends failed_verification
with no vendor call. -/
theorem c3_no_vendor_without_proof_witness :
    runMonitor wMonEnv (wDtoFor wHash2) =
      { updates := [(wHash2, TxStatus.failed)], vendorCalls := [] } ∧
    runMonitor wMonEnv (wDtoFor wHash3) =
      { updates := [(wHash3, TxStatus.success), (wHash3, TxStatus.failed_verification)],
        vendorCalls := [] } := by
  constructor
  · exact (c3_no_vendor_without_proof wMonEnv (wDtoFor wHash2) wReceiptReverted
      (by decide)).1 (by decide)
  · exact (c3_no_vendor_without_proof wMonEnv (wDtoFor wHash3) wReceiptSmall
      (by decide)).2.1 wTreasury wMeta rfl rfl rfl rfl rfl wVerify_small

/-- C4: verification accepts a receipt exactly when it succeeded and some
log is a Transfer event of the expected token to the expected address with
value at least the expected amount — strictly larger values pass, smaller
ones do not — and on the fulfillment path a success receipt failing this
check drives the record to failed_verification. -/
theorem c4_verify_characterization (receipt : Receipt) (expectedTo : Address)
    (expectedAmount : ℚ) (token : Currency) :
    (verifyERC20Transfer receipt expectedTo expectedAmount token = true ↔
      receipt.status = "success" ∧ ∃ log ∈ receipt.logs,
        lower log.address = lower (tokenAddress token) ∧
        log.topics.getD 0 "" = TRANSFER_TOPIC ∧
        decodeTopicAddress (log.topics.getD 2 "") = lower expectedTo ∧
        parseUnits18 expectedAmount ≤ (log.dataVal : ℚ)) ∧
    (∀ env dto t md, env.receiptFor dto.txHash = some receipt →
      receipt.status = "success" → env.treasuryAddress = some t →
      lower dto.toAddress = lower t → dto.metadata = some md →
      md.provider = "NELLOBYTES" →
      verifyERC20Transfer receipt t dto.amount dto.currency = false →
      (runMonitor env dto).updates =
        [(dto.txHash, TxStatus.success), (dto.txHash, TxStatus.failed_verification)] ∧
      (runMonitor env dto).vendorCalls = []) := by
  constructor
  · by_cases hst : receipt.status = "success"
    · simp [verifyERC20Transfer, hst, List.any_eq_true, List.mem_filter]
      constructor <;> rintro ⟨log, hmem, h⟩ <;> exact ⟨log, hmem, by tauto⟩
    · simp [verifyERC20Transfer, hst]
  · intro env dto t md hrec hst ht htreas hmd hprov hver
    constructor <;>
      simp [runMonitor, hrec, monitorOnReceipt, hst, ht, htreas, hmd, hprov, hver]

/-- Witness for C4: the 10-token transfer passes for an expected 5 (excess
accepted), the 2-token transfer fails for an expected 5 (short never
accepted), and the short one drives the monitor to failed_verification. -/
theorem c4_verify_characterization_witness :
    verifyERC20Transfer wReceiptGood wTreasury 5 "USDm" = true ∧
    verifyERC20Transfer wReceiptSmall wTreasury 5 "USDm" = false ∧
    (runMonitor wMonEnv (wDtoFor wHash3)).updates =
      [(wHash3, TxStatus.success), (wHash3, TxStatus.failed_verification)] ∧
    (runMonitor wMonEnv (wDtoFor wHash3)).vendorCalls = [] := by
  refine ⟨?_, wVerify_small, ?_⟩
  · exact (c4_verify_characterization wReceiptGood wTreasury 5 "USDm").1.mpr
      ⟨rfl, wGoodLog, by simp [wReceiptGood], by decide, by decide, by decide,
        by norm_num [wGoodLog, parseUnits18]⟩
  · exact (c4_verify_characterization wReceiptSmall wTreasury 5 "USDm").2
      wMonEnv (wDtoFor wHash3) wTreasury wMeta (by decide) rfl rfl rfl rfl rfl
      wVerify_small

-- ────────────────────────────────────────────────────────────
-- Sort lemmas for the route optimizer
-- ────────────────────────────────────────────────────────────

/-- Descending order on routes by realized output. -/
def routeGE (a b : RouteQuote) : Prop := b.amountOut ≤ a.amountOut

theorem mem_insertRoute (x r : RouteQuote) (l : List RouteQuote) :
    x ∈ insertRoute r l ↔ x = r ∨ x ∈ l := by
  induction l with
  | nil => simp [insertRoute]
  | cons y ys ih =>
    rw [insertRoute]
    split
    · simp [List.mem_cons]
    · simp only [List.mem_cons, ih]
      tauto

theorem length_insertRoute (r : RouteQuote) (l : List RouteQuote) :
    (insertRoute r l).length = l.length + 1 := by
  induction l with
  | nil => rfl
  | cons y ys ih =>
    rw [insertRoute]
    split
    · rfl
    · simp only [List.length_cons, ih]

theorem mem_sortRoutes (x : RouteQuote) (l : List RouteQuote) :
    x ∈ sortRoutes l ↔ x ∈ l := by
  induction l with
  | nil => simp [sortRoutes]
  | cons y ys ih => simp [sortRoutes, mem_insertRoute, ih]

theorem length_sortRoutes (l : List RouteQuote) :
    (sortRoutes l).length = l.length := by
  induction l with
  | nil => rfl
  | cons y ys ih => simp [sortRoutes, length_insertRoute, ih]

theorem pairwise_insertRoute (r : RouteQuote) (l : List RouteQuote)
    (h : l.Pairwise routeGE) : (insertRoute r l).Pairwise routeGE := by
  induction l with
  | nil => simp [insertRoute]
  | cons y ys ih =>
    rw [List.pairwise_cons] at h
    rw [insertRoute]
    split
    · next hcond =>
      refine List.Pairwise.cons ?_ (List.Pairwise.cons h.1 h.2)
      intro z hz
      rcases List.mem_cons.mp hz with rfl | hz2
      · exact hcond
      · exact le_trans (h.1 z hz2) hcond
    · next hcond =>
      refine List.Pairwise.cons ?_ (ih h.2)
      intro z hz
      rcases (mem_insertRoute z r ys).mp hz with rfl | hz2
      · exact le_of_lt (lt_of_not_le hcond)
      · exact h.1 z hz2

theorem pairwise_sortRoutes (l : List RouteQuote) :
    (sortRoutes l).Pairwise routeGE := by
  induction l with
  | nil => simp [sortRoutes]
  | cons y ys ih => exact pairwise_insertRoute y _ ih

theorem firstBest_eq_none_iff (l : List RouteQuote) :
    firstBest l = none ↔ l = [] := by
  cases l with
  | nil => simp [firstBest]
  | cons y ys =>
    rw [firstBest]
    cases firstBest ys <;> simp
    split <;> simp

theorem head?_sortRoutes (l : List RouteQuote) :
    (sortRoutes l).head? = firstBest l := by
  induction l with
  | nil => rfl
  | cons y ys ih =>
    rw [sortRoutes]
    cases hs : sortRoutes ys with
    | nil =>
      have hfb : firstBest ys = none := by rw [← ih, hs]; rfl
      rw [firstBest, hfb]
      rfl
    | cons b bs =>
      have hfb : firstBest ys = some b := by rw [← ih, hs]; rfl
      rw [firstBest, hfb]
      show (insertRoute y (b :: bs)).head? =
        if b.amountOut > y.amountOut then some b else some y
      rw [insertRoute]
      by_cases hcond : b.amountOut ≤ y.amountOut
      · rw [if_pos hcond, if_neg (not_lt.mpr hcond)]
        rfl
      · rw [if_neg hcond, if_pos (lt_of_not_le hcond)]
        rfl

theorem firstBest_mem : ∀ {l : List RouteQuote} {b : RouteQuote},
    firstBest l = some b → b ∈ l
  | [], _, h => by cases h
  | y :: ys, b, h => by
    cases hfb : firstBest ys with
    | none =>
      simp only [firstBest, hfb, Option.some.injEq] at h
      simp [← h]
    | some c =>
      simp only [firstBest, hfb] at h
      by_cases hgt : c.amountOut > y.amountOut
      · rw [if_pos hgt, Option.some.injEq] at h
        exact List.mem_cons_of_mem y (h ▸ firstBest_mem hfb)
      · rw [if_neg hgt, Option.some.injEq] at h
        simp [← h]

theorem firstBest_max : ∀ {l : List RouteQuote} {b : RouteQuote},
    firstBest l = some b → ∀ x ∈ l, x.amountOut ≤ b.amountOut
  | [], _, h => by cases h
  | y :: ys, b, h => by
    intro x hx
    cases hfb : firstBest ys with
    | none =>
      have hys : ys = [] := (firstBest_eq_none_iff ys).mp hfb
      simp only [firstBest, hfb, Option.some.injEq] at h
      subst hys
      rcases List.mem_cons.mp hx with rfl | hx2
      · exact le_of_eq (by rw [h])
      · cases hx2
    | some c =>
      simp only [firstBest, hfb] at h
      by_cases hgt : c.amountOut > y.amountOut
      · rw [if_pos hgt, Option.some.injEq] at h
        subst h
        rcases List.mem_cons.mp hx with rfl | hx2
        · exact le_of_lt hgt
        · exact firstBest_max hfb x hx2
      · rw [if_neg hgt, Option.some.injEq] at h
        subst h
        rcases List.mem_cons.mp hx with rfl | hx2
        · exact le_refl _
        · exact le_trans (firstBest_max hfb x hx2) (not_lt.mp hgt)

theorem firstBest_cons_eq_head {d : RouteQuote} {rest : List RouteQuote}
    {b : RouteQuote} (h : firstBest (d :: rest) = some b)
    (hle : b.amountOut ≤ d.amountOut) : b = d := by
  cases hfb : firstBest rest with
  | none =>
    simp only [firstBest, hfb, Option.some.injEq] at h
    exact h.symm
  | some c =>
    simp only [firstBest, hfb] at h
    by_cases hgt : c.amountOut > d.amountOut
    · rw [if_pos hgt, Option.some.injEq] at h
      exact absurd (lt_of_le_of_lt (h ▸ hle) hgt) (lt_irrefl _)
    · rw [if_neg hgt, Option.some.injEq] at h
      exact h.symm

theorem getLastI_cons_cons (a b : RouteQuote) (l : List RouteQuote) :
    (a :: b :: l).getLastI = (b :: l).getLastI := by
  simp [List.getLastI_eq_getLast?, List.getLast?]

theorem getLastI_mem : ∀ (l : List RouteQuote), l ≠ [] → l.getLastI ∈ l
  | [], h => absurd rfl h
  | [a], _ => by simp [List.getLastI_eq_getLast?, List.getLast?]
  | a :: b :: l, _ => by
    rw [getLastI_cons_cons]
    exact List.mem_cons_of_mem a (getLastI_mem (b :: l) (by simp))

theorem getLastI_min (l : List RouteQuote) (h : l.Pairwise routeGE) :
    ∀ x ∈ l, l.getLastI.amountOut ≤ x.amountOut := by
  induction l with
  | nil => intro x hx; cases hx
  | cons y ys ih =>
    rw [List.pairwise_cons] at h
    intro x hx
    cases hys : ys with
    | nil =>
      subst hys
      rcases List.mem_cons.mp hx with rfl | hx2
      · exact le_refl _
      · cases hx2
    | cons z zs =>
      subst hys
      rw [getLastI_cons_cons]
      rcases List.mem_cons.mp hx with rfl | hx2
      · exact h.1 _ (getLastI_mem (z :: zs) (by simp))
      · exact ih h.2 x hx2

-- ────────────────────────────────────────────────────────────
-- Inversion lemmas for route enumeration
-- ────────────────────────────────────────────────────────────

theorem getDirectQuote_some {env : RouteEnv} {f t : Currency} {a : ℚ}
    {d : RouteQuote} (h : getDirectQuote env f t a = some d) :
    d.hops = 1 ∧ d.path = [f, t] := by
  rw [getDirectQuote] at h
  rcases hq : env.swapQuote f t a with _ | q
  · simp only [hq] at h
    cases h
  · simp only [hq, Option.some.injEq] at h
    subst h
    exact ⟨rfl, rfl⟩

theorem mem_getMultiHopQuotes {env : RouteEnv} {f t : Currency} {a : ℚ}
    {r : RouteQuote} (hmem : r ∈ getMultiHopQuotes env f t a) :
    ∃ i ∈ INTERMEDIATE_TOKENS, i ≠ f ∧ i ≠ t ∧
      ∃ h1 h2, env.swapQuote f i a = some h1 ∧
        env.swapQuote i t h1.amountOut = some h2 ∧
        r = { path := [f, i, t], amountOut := h2.amountOut,
              totalCost := a - h2.amountOut / (h2.amountOut / a),
              price := h2.amountOut / a,
              src := "mento-multihop-via-" ++ i, hops := 2 } := by
  rw [getMultiHopQuotes, List.mem_filterMap] at hmem
  obtain ⟨i, hi, hfi⟩ := hmem
  by_cases hift : i = f ∨ i = t
  · rw [if_pos hift] at hfi
    cases hfi
  rw [if_neg hift] at hfi
  by_cases hcelo : f = "CELO" ∨ t = "CELO"
  · rw [if_pos hcelo] at hfi
    cases hfi
  rw [if_neg hcelo] at hfi
  rcases hq1 : env.swapQuote f i a with _ | h1
  · simp only [hq1] at hfi
    cases hfi
  simp only [hq1] at hfi
  rcases hq2 : env.swapQuote i t h1.amountOut with _ | h2
  · simp only [hq2] at hfi
    cases hfi
  simp only [hq2, Option.some.injEq] at hfi
  push_neg at hift
  exact ⟨i, hi, hift.1, hift.2, h1, h2, hq1, hq2, hfi.symm⟩

theorem getMultiHopQuotes_mem {env : RouteEnv} {f t : Currency} {a : ℚ}
    {i : Currency} {h1 h2 : SwapQuote}
    (hi : i ∈ INTERMEDIATE_TOKENS) (hif : i ≠ f) (hit : i ≠ t)
    (hcf : f ≠ "CELO") (hct : t ≠ "CELO")
    (hq1 : env.swapQuote f i a = some h1)
    (hq2 : env.swapQuote i t h1.amountOut = some h2) :
    ({ path := [f, i, t], amountOut := h2.amountOut,
       totalCost := a - h2.amountOut / (h2.amountOut / a),
       price := h2.amountOut / a,
       src := "mento-multihop-via-" ++ i, hops := 2 } : RouteQuote) ∈
      getMultiHopQuotes env f t a := by
  rw [getMultiHopQuotes, List.mem_filterMap]
  refine ⟨i, hi, ?_⟩
  rw [if_neg (by tauto), if_neg (by tauto)]
  simp only [hq1, hq2]

theorem hops_of_mem_multiHop {env : RouteEnv} {f t : Currency} {a : ℚ}
    {r : RouteQuote} (hr : r ∈ getMultiHopQuotes env f t a) : r.hops = 2 := by
  obtain ⟨i, _, _, _, h1, h2, _, _, hre⟩ := mem_getMultiHopQuotes hr
  rw [hre]

theorem routesEnum_shape (env : RouteEnv) (f t : Currency) (a : ℚ) :
    ∀ r ∈ routesEnum env f t a,
      (r.hops = 1 ∧ r.path = [f, t]) ∨
      (r.hops = 2 ∧ ∃ i, r.path = [f, i, t] ∧ i ∈ INTERMEDIATE_TOKENS ∧
        i ≠ f ∧ i ≠ t) := by
  intro r hr
  rw [routesEnum, List.mem_append] at hr
  rcases hr with hd | hm
  · left
    rcases hq : getDirectQuote env f t a with _ | d <;> simp only [hq] at hd
    · cases hd
    · have hrd : r = d := by simpa using hd
      obtain ⟨hh, hp⟩ := getDirectQuote_some hq
      exact ⟨hrd ▸ hh, hrd ▸ hp⟩
  · right
    obtain ⟨i, hi, hif, hit, h1, h2, hq1, hq2, hre⟩ := mem_getMultiHopQuotes hm
    subst hre
    exact ⟨rfl, i, rfl, hi, hif, hit⟩

theorem routesEnum_hops_one (env : RouteEnv) (f t : Currency) (a : ℚ)
    {r : RouteQuote} (hr : r ∈ routesEnum env f t a) (h1 : r.hops = 1) :
    routesEnum env f t a = r :: getMultiHopQuotes env f t a := by
  rw [routesEnum] at hr ⊢
  rcases hq : getDirectQuote env f t a with _ | d <;> simp only [hq] at hr ⊢
  · rw [List.nil_append] at hr
    have := hops_of_mem_multiHop hr
    omega
  · rw [List.singleton_append] at hr ⊢
    rcases List.mem_cons.mp hr with rfl | hr2
    · rfl
    · have := hops_of_mem_multiHop hr2
      omega

theorem findBestRoute_mem_enum (env : RouteEnv) (fromT toT : Currency)
    (amountIn : ℚ) (c : RouteComparison)
    (h : findBestRoute env fromT toT amountIn = Except.ok c) :
    ∀ r ∈ c.bestRoute :: c.allRoutes, r ∈ routesEnum env fromT toT amountIn := by
  simp only [findBestRoute] at h
  by_cases hne : routesEnum env fromT toT amountIn = []
  · rw [if_pos hne] at h
    cases h
  rw [if_neg hne] at h
  simp only [Except.ok.injEq] at h
  subst h
  have hsne : sortRoutes (routesEnum env fromT toT amountIn) ≠ [] := by
    intro hnil
    apply hne
    have hlen := length_sortRoutes (routesEnum env fromT toT amountIn)
    rw [hnil] at hlen
    exact List.eq_nil_of_length_eq_zero hlen.symm
  intro r hr
  rcases List.mem_cons.mp hr with rfl | hr2
  · apply (mem_sortRoutes _ _).mp
    cases hs : sortRoutes (routesEnum env fromT toT amountIn) with
    | nil => exact absurd hs hsne
    | cons b bs => simp [List.headI]
  · exact (mem_sortRoutes r _).mp hr2

-- ────────────────────────────────────────────────────────────
-- Claims C5, C6, C9
-- ────────────────────────────────────────────────────────────

/-- C5: for every non-empty route set, bestRoute realizes the maximum
output; among equal-output routes it has the fewest hops, and it is the
first enumerated route attaining the maximum (direct before multi-hop, the
order a stable descending sort preserves); savings is bestRoute output
minus the worst output, and zero when only one route exists. -/
theorem c5_best_route_selection (env : RouteEnv) (fromT toT : Currency)
    (amountIn : ℚ) (c : RouteComparison)
    (h : findBestRoute env fromT toT amountIn = Except.ok c) :
    c.bestRoute ∈ c.allRoutes ∧
    (∀ r ∈ c.allRoutes, r.amountOut ≤ c.bestRoute.amountOut) ∧
    (∀ r ∈ c.allRoutes, r.amountOut = c.bestRoute.amountOut →
      c.bestRoute.hops ≤ r.hops) ∧
    some c.bestRoute = firstBest (routesEnum env fromT toT amountIn) ∧
    (∃ w ∈ c.allRoutes, (∀ r ∈ c.allRoutes, w.amountOut ≤ r.amountOut) ∧
      c.savings = c.bestRoute.amountOut - w.amountOut) ∧
    (c.allRoutes.length = 1 → c.savings = 0) := by
  simp only [findBestRoute] at h
  by_cases hne : routesEnum env fromT toT amountIn = []
  · rw [if_pos hne] at h
    cases h
  rw [if_neg hne] at h
  simp only [Except.ok.injEq] at h
  subst h
  have hsne : sortRoutes (routesEnum env fromT toT amountIn) ≠ [] := by
    intro hnil
    apply hne
    have hlen := length_sortRoutes (routesEnum env fromT toT amountIn)
    rw [hnil] at hlen
    exact List.eq_nil_of_length_eq_zero hlen.symm
  have hhead : firstBest (routesEnum env fromT toT amountIn) =
      some (sortRoutes (routesEnum env fromT toT amountIn)).headI := by
    rw [← head?_sortRoutes]
    cases hs : sortRoutes (routesEnum env fromT toT amountIn) with
    | nil => exact absurd hs hsne
    | cons b bs => rfl
  refine ⟨?_, ?_, ?_, hhead.symm, ?_, ?_⟩
  · show (sortRoutes (routesEnum env fromT toT amountIn)).headI ∈
      sortRoutes (routesEnum env fromT toT amountIn)
    cases hs : sortRoutes (routesEnum env fromT toT amountIn) with
    | nil => exact absurd hs hsne
    | cons b bs => simp [List.headI]
  · intro r hr
    exact firstBest_max hhead r ((mem_sortRoutes r _).mp hr)
  · intro r hr heq
    show (sortRoutes (routesEnum env fromT toT amountIn)).headI.hops ≤ r.hops
    have hrmem : r ∈ routesEnum env fromT toT amountIn :=
      (mem_sortRoutes r _).mp hr
    have hbmem : (sortRoutes (routesEnum env fromT toT amountIn)).headI ∈
        routesEnum env fromT toT amountIn := firstBest_mem hhead
    rcases routesEnum_shape env fromT toT amountIn _ hbmem with ⟨hb1, _⟩ | ⟨hb2, _⟩
    · rcases routesEnum_shape env fromT toT amountIn r hrmem with ⟨hr1, _⟩ | ⟨hr2, _⟩ <;>
        omega
    · rcases routesEnum_shape env fromT toT amountIn r hrmem with ⟨hr1, _⟩ | ⟨hr2, _⟩
      · have hsplit := routesEnum_hops_one env fromT toT amountIn hrmem hr1
        have hfb2 : firstBest (r :: getMultiHopQuotes env fromT toT amountIn) =
            some (sortRoutes (routesEnum env fromT toT amountIn)).headI := by
          rw [← hsplit]
          exact hhead
        have hbr := firstBest_cons_eq_head hfb2 heq.ge
        rw [hbr]
      · omega
  · refine ⟨(sortRoutes (routesEnum env fromT toT amountIn)).getLastI,
      getLastI_mem _ hsne, ?_, ?_⟩
    · intro r hr
      exact getLastI_min _ (pairwise_sortRoutes _) r hr
    · show (if 1 < (sortRoutes (routesEnum env fromT toT amountIn)).length then
          (sortRoutes (routesEnum env fromT toT amountIn)).headI.amountOut -
            (sortRoutes (routesEnum env fromT toT amountIn)).getLastI.amountOut
        else 0) = _
      by_cases hlen : 1 < (sortRoutes (routesEnum env fromT toT amountIn)).length
      · rw [if_pos hlen]
      · rw [if_neg hlen]
        have hpos : 0 < (sortRoutes (routesEnum env fromT toT amountIn)).length :=
          List.length_pos.mpr hsne
        have hlen1 : (sortRoutes (routesEnum env fromT toT amountIn)).length = 1 := by
          omega
        obtain ⟨x, hx⟩ := List.length_eq_one.mp hlen1
        rw [hx]
        simp [List.headI, List.getLastI_eq_getLast?, List.getLast?]
  · intro hlen1
    show (if 1 < (sortRoutes (routesEnum env fromT toT amountIn)).length then
        (sortRoutes (routesEnum env fromT toT amountIn)).headI.amountOut -
          (sortRoutes (routesEnum env fromT toT amountIn)).getLastI.amountOut
      else 0) = 0
    have hlen : (sortRoutes (routesEnum env fromT toT amountIn)).length = 1 := hlen1
    rw [if_neg (by omega)]

/-- C6: findBestRoute fails with the no-route error exactly when no route
could be quoted; a successfully quoted direct route is always in the
result, whatever the intermediates did; a successfully quoted two-hop
route is always in the result, whatever the other paths did; and one
quotable intermediate alone already yields a non-empty result. -/
theorem c6_partial_failure_tolerance (env : RouteEnv) (fromT toT : Currency)
    (amountIn : ℚ) :
    (findBestRoute env fromT toT amountIn = Except.error RouteError.noRoute ↔
      routesEnum env fromT toT amountIn = []) ∧
    (∀ d, getDirectQuote env fromT toT amountIn = some d →
      ∃ c, findBestRoute env fromT toT amountIn = Except.ok c ∧ d ∈ c.allRoutes) ∧
    (∀ r ∈ getMultiHopQuotes env fromT toT amountIn,
      ∃ c, findBestRoute env fromT toT amountIn = Except.ok c ∧ r ∈ c.allRoutes) ∧
    (∀ i h1 h2, i ∈ INTERMEDIATE_TOKENS → i ≠ fromT → i ≠ toT →
      fromT ≠ "CELO" → toT ≠ "CELO" →
      env.swapQuote fromT i amountIn = some h1 →
      env.swapQuote i toT h1.amountOut = some h2 →
      ∃ c, findBestRoute env fromT toT amountIn = Except.ok c ∧
        c.allRoutes ≠ []) := by
  have hok : ∀ (hne : routesEnum env fromT toT amountIn ≠ []),
      findBestRoute env fromT toT amountIn = Except.ok
        { bestRoute := (sortRoutes (routesEnum env fromT toT amountIn)).headI,
          allRoutes := sortRoutes (routesEnum env fromT toT amountIn),
          savings :=
            if 1 < (sortRoutes (routesEnum env fromT toT amountIn)).length then
              (sortRoutes (routesEnum env fromT toT amountIn)).headI.amountOut -
                (sortRoutes (routesEnum env fromT toT amountIn)).getLastI.amountOut
            else 0 } := by
    intro hne
    simp only [findBestRoute]
    rw [if_neg hne]
  refine ⟨?_, ?_, ?_, ?_⟩
  · constructor
    · intro h
      by_cases hne : routesEnum env fromT toT amountIn = []
      · exact hne
      · rw [hok hne] at h
        cases h
    · intro h
      simp only [findBestRoute]
      rw [if_pos h]
  · intro d hd
    have hmem : d ∈ routesEnum env fromT toT amountIn := by
      rw [routesEnum]
      simp only [hd]
      exact List.mem_append_left _ (by simp)
    have hne : routesEnum env fromT toT amountIn ≠ [] :=
      List.ne_nil_of_mem hmem
    exact ⟨_, hok hne, (mem_sortRoutes d _).mpr hmem⟩
  · intro r hr
    have hmem : r ∈ routesEnum env fromT toT amountIn := by
      rw [routesEnum]
      exact List.mem_append_right _ hr
    have hne : routesEnum env fromT toT amountIn ≠ [] :=
      List.ne_nil_of_mem hmem
    exact ⟨_, hok hne, (mem_sortRoutes r _).mpr hmem⟩
  · intro i h1 h2 hi hif hit hcf hct hq1 hq2
    have hmulti := getMultiHopQuotes_mem hi hif hit hcf hct hq1 hq2
    have hmem := List.mem_append_right
      (match getDirectQuote env fromT toT amountIn with
        | some d => [d]
        | none => []) hmulti
    have hne : routesEnum env fromT toT amountIn ≠ [] := by
      rw [routesEnum]
      exact List.ne_nil_of_mem hmem
    exact ⟨_, hok hne, fun hnil => hne (by
      have hnil2 : sortRoutes (routesEnum env fromT toT amountIn) = [] := hnil
      have hlen := length_sortRoutes (routesEnum env fromT toT amountIn)
      rw [hnil2] at hlen
      exact List.eq_nil_of_length_eq_zero hlen.symm)⟩

/-- C9: every route in the result (bestRoute and every element of
allRoutes) has a path of length 2 or 3 running from the source to the
destination currency, any intermediate being drawn from the configured set
and distinct from both endpoints. -/
theorem c9_route_path_invariants (env : RouteEnv) (fromT toT : Currency)
    (amountIn : ℚ) (c : RouteComparison)
    (h : findBestRoute env fromT toT amountIn = Except.ok c) :
    ∀ r ∈ c.bestRoute :: c.allRoutes,
      ((r.path.length = 2 ∧ r.path = [fromT, toT]) ∨
       (r.path.length = 3 ∧ ∃ i, r.path = [fromT, i, toT] ∧
         i ∈ INTERMEDIATE_TOKENS ∧ i ≠ fromT ∧ i ≠ toT)) ∧
      r.path.headI = fromT ∧ r.path.getLastI = toT := by
  have hsel := findBestRoute_mem_enum env fromT toT amountIn c h
  intro r hr
  have hrmem : r ∈ routesEnum env fromT toT amountIn := hsel r hr
  rcases routesEnum_shape env fromT toT amountIn r hrmem with ⟨_, hp⟩ | ⟨_, i, hp, hi, hif, hit⟩
  · rw [hp]
    refine ⟨Or.inl ⟨rfl, rfl⟩, rfl, ?_⟩
    simp [List.getLastI_eq_getLast?, List.getLast?]
  · rw [hp]
    refine ⟨Or.inr ⟨rfl, i, rfl, hi, hif, hit⟩, rfl, ?_⟩
    simp [List.getLastI_eq_getLast?, List.getLast?]

-- ────────────────────────────────────────────────────────────
-- Route fixture evaluations and witnesses
-- ────────────────────────────────────────────────────────────

/-- Evaluation: the direct NGNm to USDm quote of the route fixture. -/
theorem wDirect_eval :
    getDirectQuote wRouteEnv "NGNm" "USDm" 1000 = some wRouteDirect := by
  simp [getDirectQuote, wRouteEnv, wRouteDirect, jsOr]
  norm_num

/-- Evaluation: the only viable two-hop route of the fixture goes via EURm;
the BRLm and KESm intermediates fail and are skipped. -/
theorem wMulti_eval :
    getMultiHopQuotes wRouteEnv "NGNm" "USDm" 1000 = [wRouteEUR] := by
  simp [getMultiHopQuotes, INTERMEDIATE_TOKENS, wRouteEnv, wRouteEUR,
    List.filterMap]
  norm_num

/-- Evaluation: the two fixture routes sort with the 12-output two-hop
route first. -/
theorem wSorted_eval :
    sortRoutes [wRouteDirect, wRouteEUR] = [wRouteEUR, wRouteDirect] := by
  rw [sortRoutes, sortRoutes, sortRoutes, insertRoute, insertRoute]
  rw [if_neg (by norm_num [wRouteDirect, wRouteEUR]), insertRoute]

/-- Evaluation: findBestRoute on the fixture selects the two-hop route via
EURm with a savings of 2 over the direct route. -/
theorem wFind_eval :
    findBestRoute wRouteEnv "NGNm" "USDm" 1000 = Except.ok
      { bestRoute := wRouteEUR, allRoutes := [wRouteEUR, wRouteDirect],
        savings := 2 } := by
  have henum : routesEnum wRouteEnv "NGNm" "USDm" 1000 = [wRouteDirect, wRouteEUR] := by
    simp only [routesEnum, wDirect_eval, wMulti_eval]
    rfl
  simp only [findBestRoute, henum]
  rw [if_neg (by simp), wSorted_eval]
  simp [List.headI, List.getLastI_eq_getLast?, List.getLast?, wRouteEUR, wRouteDirect]
  norm_num

/-- Witness for C5: on the fixture, the returned best route is the 12-output
two-hop route, the savings is 2, the selection is the first enumerated
maximum, and every returned route is dominated by it. -/
theorem c5_best_route_selection_witness :
    ∃ c, findBestRoute wRouteEnv "NGNm" "USDm" 1000 = Except.ok c ∧
      c.bestRoute = wRouteEUR ∧ c.savings = 2 ∧
      some c.bestRoute = firstBest (routesEnum wRouteEnv "NGNm" "USDm" 1000) ∧
      (∀ r ∈ c.allRoutes, r.amountOut ≤ c.bestRoute.amountOut) ∧
      (∀ r ∈ c.allRoutes, r.amountOut = c.bestRoute.amountOut →
        c.bestRoute.hops ≤ r.hops) := by
  refine ⟨_, wFind_eval, rfl, rfl, ?_, ?_, ?_⟩
  · exact (c5_best_route_selection wRouteEnv "NGNm" "USDm" 1000 _ wFind_eval).2.2.2.1
  · exact (c5_best_route_selection wRouteEnv "NGNm" "USDm" 1000 _ wFind_eval).2.1
  · exact (c5_best_route_selection wRouteEnv "NGNm" "USDm" 1000 _ wFind_eval).2.2.1

/-- Witness for C6: a dead quote source gives the no-route error; on the
fixture (direct and the EURm intermediate quotable, BRLm and KESm failing)
both quoted routes appear in the non-empty result. -/
theorem c6_partial_failure_tolerance_witness :
    (findBestRoute wRouteEnvDead "NGNm" "USDm" 1000 =
      Except.error RouteError.noRoute) ∧
    (∃ c, findBestRoute wRouteEnv "NGNm" "USDm" 1000 = Except.ok c ∧
      wRouteDirect ∈ c.allRoutes) ∧
    (∃ c, findBestRoute wRouteEnv "NGNm" "USDm" 1000 = Except.ok c ∧
      wRouteEUR ∈ c.allRoutes) := by
  refine ⟨?_, ?_, ?_⟩
  · exact (c6_partial_failure_tolerance wRouteEnvDead "NGNm" "USDm" 1000).1.mpr rfl
  · exact (c6_partial_failure_tolerance wRouteEnv "NGNm" "USDm" 1000).2.1
      wRouteDirect wDirect_eval
  · exact (c6_partial_failure_tolerance wRouteEnv "NGNm" "USDm" 1000).2.2.1
      wRouteEUR (by rw [wMulti_eval]; simp)

/-- Witness for C9: the invariants instantiated at both returned fixture
routes. -/
theorem c9_route_path_invariants_witness :
    (((wRouteEUR.path.length = 2 ∧ wRouteEUR.path = ["NGNm", "USDm"]) ∨
      (wRouteEUR.path.length = 3 ∧ ∃ i, wRouteEUR.path = ["NGNm", i, "USDm"] ∧
        i ∈ INTERMEDIATE_TOKENS ∧ i ≠ "NGNm" ∧ i ≠ "USDm")) ∧
      wRouteEUR.path.headI = "NGNm" ∧ wRouteEUR.path.getLastI = "USDm") ∧
    (((wRouteDirect.path.length = 2 ∧ wRouteDirect.path = ["NGNm", "USDm"]) ∨
      (wRouteDirect.path.length = 3 ∧ ∃ i, wRouteDirect.path = ["NGNm", i, "USDm"] ∧
        i ∈ INTERMEDIATE_TOKENS ∧ i ≠ "NGNm" ∧ i ≠ "USDm")) ∧
      wRouteDirect.path.headI = "NGNm" ∧ wRouteDirect.path.getLastI = "USDm") := by
  constructor
  · exact c9_route_path_invariants wRouteEnv "NGNm" "USDm" 1000 _ wFind_eval
      wRouteEUR (by simp)
  · exact c9_route_path_invariants wRouteEnv "NGNm" "USDm" 1000 _ wFind_eval
      wRouteDirect (by simp)

end RonPay
